import Mathlib

attribute [local semireducible] Rat.add Rat.mul Rat.inv Rat.sub

/-!
Verification development for the Safety-Backend collision-risk service.

The embedding below is a shallow model of the WebSocket message pipeline in
src/Backend/index.js (the three-predictor version: predicted collision,
rear end, wrong direction) and of the neighbor-processing chain of the
four-predictor variant (src/unnamed/part_000: intersection, rear collision,
wrong direction, overtake).

Modelling conventions:
  * JavaScript numbers are modelled by JSNum: NaN, +Infinity, -Infinity, or a
    finite rational.  Arithmetic on doubles is idealised as exact rational
    arithmetic; NaN and infinity propagation follows the ECMAScript rules.
  * Transcendental functions (Math.sin, Math.cos, Math.asin, Math.atan2,
    Math.sqrt, Math.hypot) are parameters of the embedding, collected in the
    Trig structure, because their double-precision values are not rational.
    All control-flow theorems hold for every Trig instance; concrete witness
    runs use an instance that is exact (or has a negligible error against the
    IEEE values) at every argument that the run evaluates.
  * JSON values that can appear in a parsed telemetry field are modelled by
    JVal (undefined, null, boolean, finite number, string).  JSON itself can
    only produce finite numbers.
  * Number(string) is modelled for plain decimal literals and the Infinity
    forms; exponent notation is not modelled (no claim depends on it).
-/

/-- A JavaScript number: NaN, +Infinity, -Infinity, or a finite value
(idealised as an exact rational). -/
inductive JSNum where
  | nan : JSNum
  | inf : JSNum
  | ninf : JSNum
  | fin (q : ℚ) : JSNum
deriving DecidableEq, Repr

namespace JSNum

/-- ECMAScript Math.max on two numbers: NaN absorbs, otherwise the larger. -/
def jmax : JSNum → JSNum → JSNum
  | nan, _ => nan
  | _, nan => nan
  | inf, _ => inf
  | _, inf => inf
  | ninf, b => b
  | a, ninf => a
  | fin a, fin b => fin (max a b)

/-- JS subtraction. -/
def jsub : JSNum → JSNum → JSNum
  | nan, _ => nan
  | _, nan => nan
  | inf, inf => nan
  | inf, _ => inf
  | ninf, ninf => nan
  | ninf, _ => ninf
  | fin _, inf => ninf
  | fin _, ninf => inf
  | fin a, fin b => fin (a - b)

/-- JS multiplication by a positive rational constant. -/
def jmulPos (a : JSNum) (c : ℚ) : JSNum :=
  match a with
  | nan => nan
  | inf => inf
  | ninf => ninf
  | fin q => fin (q * c)

/-- JS division by a nonzero rational constant. -/
def jdivC (a : JSNum) (c : ℚ) : JSNum :=
  match a with
  | nan => nan
  | inf => if c > 0 then inf else ninf
  | ninf => if c > 0 then ninf else inf
  | fin q => if c = 0 then (if q = 0 then nan else if q > 0 then inf else ninf)
             else fin (q / c)

/-- JS comparison a <= c (c a finite constant): false on NaN. -/
def jleC (a : JSNum) (c : ℚ) : Bool :=
  match a with
  | nan => false
  | inf => false
  | ninf => true
  | fin q => decide (q ≤ c)

/-- JS comparison a >= c: false on NaN. -/
def jgeC (a : JSNum) (c : ℚ) : Bool :=
  match a with
  | nan => false
  | inf => true
  | ninf => false
  | fin q => decide (c ≤ q)

/-- JS comparison a > c: false on NaN. -/
def jgtC (a : JSNum) (c : ℚ) : Bool :=
  match a with
  | nan => false
  | inf => true
  | ninf => false
  | fin q => decide (c < q)

/-- JS comparison a < c: false on NaN. -/
def jltC (a : JSNum) (c : ℚ) : Bool :=
  match a with
  | nan => false
  | inf => false
  | ninf => true
  | fin q => decide (q < c)

/-- JS Math.abs. -/
def jabs : JSNum → JSNum
  | nan => nan
  | inf => inf
  | ninf => inf
  | fin q => fin |q|

end JSNum

/-- Truncation toward zero of a rational, as in a JS ToInteger step. -/
def ratTrunc (q : ℚ) : ℤ := Int.tdiv q.num q.den

/-- The JS remainder operator a % b for finite operands (sign of the
dividend), used by normalizeHeadingDeg. -/
def jsMod (a b : ℚ) : ℚ := a - b * ((ratTrunc (a / b) : ℤ) : ℚ)

/-- Rounding to two decimals, modelling Number(x.toFixed(2)) on finite
values: nearest multiple of 1/100, ties away from zero. -/
def round2 (q : ℚ) : ℚ :=
  if q < 0 then -(((ratTrunc (-q * 100 + 1/2) : ℤ) : ℚ) / 100)
  else (((ratTrunc (q * 100 + 1/2) : ℤ) : ℚ) / 100)

/-- Number(x.toFixed(2)) lifted to JSNum. -/
def round2J : JSNum → JSNum
  | .nan => .nan
  | .inf => .inf
  | .ninf => .ninf
  | .fin q => .fin (round2 q)

/-- A JSON value as it can appear in a parsed telemetry field.  undef models
a missing property (its value when read is undefined). -/
inductive JVal where
  | undef : JVal
  | null : JVal
  | jbool (b : Bool) : JVal
  | num (q : ℚ) : JVal
  | str (s : String) : JVal
deriving DecidableEq, Repr

namespace JVal

/-- The ?? operator: replace undefined/null with the default. -/
def coalesce (v d : JVal) : JVal :=
  match v with
  | undef => d
  | null => d
  | _ => v

/-- JS truthiness test (for the || operator). -/
def falsy : JVal → Bool
  | undef => true
  | null => true
  | jbool b => !b
  | num q => decide (q = 0)
  | str s => decide (s = "")

/-- The || operator with a default. -/
def orElse (v d : JVal) : JVal := if falsy v then d else v

end JVal

/-- ASCII whitespace for the trim model. -/
def isWsChar (c : Char) : Bool :=
  c = ' ' ∨ c = '\t' ∨ c = '\n' ∨ c = '\r' ∨ c = '\x0b' ∨ c = '\x0c'

/-- String.prototype.trim, modelled charwise (ASCII whitespace). -/
def jsTrim (s : String) : String :=
  String.mk (((s.data.dropWhile isWsChar).reverse.dropWhile isWsChar).reverse)

/-- Parse an unsigned decimal digit string into (value, number of digits). -/
def parseDigitsAux : List Char → ℕ → ℕ → Option (ℕ × ℕ)
  | [], acc, n => if n = 0 then none else some (acc, n)
  | c :: cs, acc, n =>
      if c.isDigit then parseDigitsAux cs (acc * 10 + (c.toNat - 48)) (n + 1)
      else none

/-- Parse the digits after a decimal point: value scaled by 10^count. -/
def parseFracAux : List Char → ℚ → ℚ → Option ℚ
  | [], acc, _ => some acc
  | c :: cs, acc, scale =>
      if c.isDigit then
        parseFracAux cs (acc + ((c.toNat - 48 : ℕ) : ℚ) * scale / 10) (scale / 10)
      else none

/-- Parse an unsigned decimal literal (digits, optional point, digits). -/
def parseUnsigned (cs : List Char) : Option ℚ :=
  let intPart := cs.takeWhile Char.isDigit
  let rest := cs.dropWhile Char.isDigit
  match rest with
  | [] =>
      match parseDigitsAux intPart 0 0 with
      | some (v, _) => some (v : ℚ)
      | none => none
  | '.' :: fracCs =>
      let fracDigits := fracCs.takeWhile Char.isDigit
      let tail := fracCs.dropWhile Char.isDigit
      if tail ≠ [] then none
      else if intPart = [] ∧ fracDigits = [] then none
      else
        let iv : ℚ := ((parseDigitsAux intPart 0 0).map Prod.fst).getD 0
        match parseFracAux fracDigits 0 1 with
        | some fv => some (iv + fv)
        | none => some iv
  | _ => none

/-- Number(s) for a string, modelling plain decimal literals, the empty
string (0) and the Infinity spellings; exponent notation is not modelled. -/
def strToNum (s : String) : JSNum :=
  let t := jsTrim s
  if t = "" then .fin 0
  else if t = "Infinity" ∨ t = "+Infinity" then .inf
  else if t = "-Infinity" then .ninf
  else
    match t.data with
    | '-' :: cs => match parseUnsigned cs with
                   | some q => .fin (-q)
                   | none => .nan
    | '+' :: cs => match parseUnsigned cs with
                   | some q => .fin q
                   | none => .nan
    | cs => match parseUnsigned cs with
            | some q => .fin q
            | none => .nan

/-- The ECMAScript ToNumber conversion on a JVal. -/
def jsToNumber : JVal → JSNum
  | .undef => .nan
  | .null => .fin 0
  | .jbool b => .fin (if b then 1 else 0)
  | .num q => .fin q
  | .str s => strToNum s

/-- The trig/elementary-function oracle: the double-precision Math functions
the geometry kernel uses, abstracted as rational-valued functions together
with the rational value of Math.PI. -/
structure Trig where
  sin : ℚ → ℚ
  cos : ℚ → ℚ
  asin : ℚ → ℚ
  atan2 : ℚ → ℚ → ℚ
  sqrt : ℚ → ℚ
  pi : ℚ

namespace Trig

/-- Math.sin on JSNum: NaN on non-finite input. -/
def jsin (T : Trig) : JSNum → JSNum
  | .fin q => .fin (T.sin q)
  | _ => .nan

/-- Math.cos on JSNum. -/
def jcos (T : Trig) : JSNum → JSNum
  | .fin q => .fin (T.cos q)
  | _ => .nan

/-- Math.asin on JSNum: NaN outside [-1, 1] and on non-finite input. -/
def jasin (T : Trig) : JSNum → JSNum
  | .fin q => if q < -1 ∨ 1 < q then .nan else .fin (T.asin q)
  | _ => .nan

/-- Math.sqrt on JSNum: NaN on negative or NaN input, Infinity on Infinity. -/
def jsqrt (T : Trig) : JSNum → JSNum
  | .fin q => if q < 0 then .nan else .fin (T.sqrt q)
  | .inf => .inf
  | _ => .nan

end Trig

-- ---------------------------------------------------------------------------
-- Geometry kernel over exact rationals (finite-input case), transcribed from
-- src/Backend/index.js.
-- ---------------------------------------------------------------------------

/-- Earth radius used throughout the source: 6371e3 meters. -/
def earthR : ℚ := 6371000

/-- deg2rad from the source. -/
def deg2rad (T : Trig) (d : ℚ) : ℚ := d * T.pi / 180

/-- rad2deg from the source. -/
def rad2deg (T : Trig) (r : ℚ) : ℚ := r * 180 / T.pi

/-- projectPoint(latDeg, lonDeg, bearingDeg, distanceMeters) from
src/Backend/index.js lines 86-109: spherical forward projection, with the
longitude wrap to (-180, 180]. -/
def projectPoint (T : Trig) (latDeg lonDeg bearingDeg distanceMeters : ℚ) : ℚ × ℚ :=
  let φ1 := deg2rad T latDeg
  let lam1 := deg2rad T lonDeg
  let θ := deg2rad T bearingDeg
  let δ := distanceMeters / earthR
  let sinφ1 := T.sin φ1
  let cosφ1 := T.cos φ1
  let sinδ := T.sin δ
  let cosδ := T.cos δ
  let sinφ2 := sinφ1 * cosδ + cosφ1 * sinδ * T.cos θ
  let φ2 := T.asin sinφ2
  let y := T.sin θ * sinδ * cosφ1
  let x := cosδ - sinφ1 * sinφ2
  let lam2 := lam1 + T.atan2 y x
  let lat2 := rad2deg T φ2
  let lon2 := rad2deg T lam2
  let lon2 := if lon2 > 180 then lon2 - 360 else lon2
  let lon2 := if lon2 < -180 then lon2 + 360 else lon2
  (lat2, lon2)

/-- The haversine intermediate a from the message handler in
src/Backend/index.js lines 239-245. -/
def haversineA (T : Trig) (lat1 lon1 lat2 lon2 : ℚ) : ℚ :=
  let φ1 := deg2rad T lat1
  let φ2 := deg2rad T lat2
  let dφ := deg2rad T (lat2 - lat1)
  let dLam := deg2rad T (lon2 - lon1)
  T.sin (dφ / 2) ^ 2 + T.cos φ1 * T.cos φ2 * T.sin (dLam / 2) ^ 2

/-- haversineMeters(lat1, lon1, lat2, lon2) for finite inputs with the
intermediate a inside [0, 1] (the only case where JS yields a number). -/
def haversineQ (T : Trig) (lat1 lon1 lat2 lon2 : ℚ) : ℚ :=
  earthR * 2 * T.atan2 (T.sqrt (haversineA T lat1 lon1 lat2 lon2))
    (T.sqrt (1 - haversineA T lat1 lon1 lat2 lon2))

/-- haversineMeters lifted to JSNum coordinates: any non-finite coordinate
propagates to NaN, and an intermediate a outside [0, 1] makes Math.sqrt
return NaN (so the distance is NaN). -/
def haversineJ (T : Trig) : JSNum → JSNum → JSNum → JSNum → JSNum
  | .fin a, .fin b, .fin c, .fin d =>
      let h := haversineA T a b c d
      if h < 0 ∨ 1 < h then .nan else .fin (haversineQ T a b c d)
  | _, _, _, _ => .nan

/-- projectPoint lifted to JSNum latitude/longitude/distance (the bearing is
always an already-normalized rational).  A non-finite input makes both output
coordinates NaN, as in JS. -/
def projectPointJ (T : Trig) (lat lon : JSNum) (bearingDeg : ℚ)
    (dist : JSNum) : JSNum × JSNum :=
  match lat, lon, dist with
  | .fin la, .fin lo, .fin d =>
      let p := projectPoint T la lo bearingDeg d
      (.fin p.1, .fin p.2)
  | _, _, _ => (.nan, .nan)

/-- headingDiff from the handler: smallest-arc absolute difference of two
headings, in [0, 180] for inputs in [0, 360). -/
def headingDiff (h1 h2 : ℚ) : ℚ :=
  let d := |h1 - h2|
  if d > 180 then 360 - d else d

/-- normalizeHeadingDeg on an exact rational. -/
def normalizeHeadingQ (q : ℚ) : ℚ :=
  let h := jsMod q 360
  if h < 0 then h + 360 else h

/-- normalizeHeadingDeg(Number(v ?? 0)): non-finite values collapse to 0. -/
def normalizeHeadingJV (v : JVal) : ℚ :=
  match jsToNumber (v.coalesce (.num 0)) with
  | .fin q => normalizeHeadingQ q
  | _ => 0

/-- Math.max(0, Number(v ?? 0)), the speed normalization used for both self
and neighbor speeds.  Note that Math.max(0, NaN) is NaN. -/
def speedNorm (v : JVal) : JSNum :=
  JSNum.jmax (.fin 0) (jsToNumber (v.coalesce (.num 0)))

-- ---------------------------------------------------------------------------
-- Detection constants: the in-handler literals of src/Backend/index.js lines
-- 269-274 and the CONFIG defaults (environment overrides are not modelled;
-- every claim speaks about the defaults).
-- ---------------------------------------------------------------------------

/-- LOOKAHEAD_S = 5 (prediction horizon, seconds). -/
def LOOKAHEAD_S : ℕ := 5

/-- COLLISION_RADIUS = 4 meters. -/
def COLLISION_RADIUS : ℚ := 4

/-- REAR_END_DISTANCE = 10 meters. -/
def REAR_END_DISTANCE : ℚ := 10

/-- SUDDEN_DECEL = 2.0 m/s^2. -/
def SUDDEN_DECEL : ℚ := 2

/-- WRONG_DIR_DIFF = 150 degrees. -/
def WRONG_DIR_DIFF : ℚ := 150

/-- CONFIG.STALE_MS default 4000 ms. -/
def STALE_MS : ℚ := 4000

/-- The telemetry fields of a parsed JSON object that the handler reads.
gyroZ models the access data.gyro?.z (undef when gyro is absent or has no z
property); accel and horizontalAccuracy are never read by the handler. -/
structure Msg where
  userId : JVal
  latitude : JVal
  longitude : JVal
  speed : JVal
  heading : JVal
  gyroZ : JVal
  timestamp : JVal
deriving DecidableEq, Repr

/-- A successfully parsed inbound JSON document: either a non-object value
or an object (projected to the fields the handler reads). -/
inductive Inbound where
  | nonObj (v : JVal)
  | obj (m : Msg)
deriving DecidableEq, Repr

/-- The result of reading userData:uid from the store and JSON-parsing it:
missing (null from mGet), malformed (JSON.parse throws, the per-neighbor
catch skips the neighbor), or a parsed object. -/
inductive StoredEntry where
  | missing
  | malformed
  | ok (m : Msg)
deriving DecidableEq, Repr

/-- new Date(v).getTime() for the values reachable after the || 0 default in
the staleness check.  Numbers inside the ECMAScript time range give their
truncated value, out-of-range numbers give NaN (none).  String dates are
modelled as invalid (none); the staleness claims only need numeric
timestamps, and an unparseable or absent timestamp is skipped either way. -/
def dateMs : JVal → Option ℚ
  | .num q => if |q| ≤ 8640000000000000 then some ((ratTrunc q : ℤ) : ℚ) else none
  | .jbool b => some (if b then 1 else 0)
  | .null => some 0
  | .undef => none
  | .str _ => none

/-- The validation block (src/Backend/index.js lines 162-172).  A non-object
top-level value always fails: falsy values fail the !data test and truthy
non-objects have no userId string property. -/
def validate : Inbound → Except String (String × ℚ × ℚ × Msg)
  | .nonObj _ => .error "missing userId"
  | .obj m =>
    match m.userId with
    | .str s =>
        if jsTrim s = "" then .error "missing userId"
        else
          match m.latitude, m.longitude with
          | .num la, .num lo => .ok (s, la, lo, m)
          | _, _ => .error "invalid coordinates"
    | _ => .error "missing userId"

/-- The sourceVehicle sub-record of a threat payload (speed is absent in the
wrong-direction payloads). -/
structure SrcVehicle where
  userId : JVal
  latitude : JVal
  longitude : JVal
  speed : Option JSNum
  heading : Option ℚ
deriving DecidableEq, Repr

/-- The threat types the three-predictor handler can emit. -/
inductive TType where
  | predicted_collision
  | rear_end
  | wrong_direction
deriving DecidableEq, Repr

/-- A threat payload of src/Backend/index.js (either the origin or the
counterpart variant). -/
structure Threat where
  ttype : TType
  tid : JVal
  tlat : JVal
  tlng : JVal
  sv : SrcVehicle
  future_distance_m : Option JSNum
  time_s : Option ℚ
  distance_m : Option JSNum
  deceleration : Option JSNum
  message : String
deriving DecidableEq, Repr

/-- The per-message context shared by all neighbor iterations. -/
structure Ctx where
  selfId : String
  baseLat : ℚ
  baseLon : ℚ
  headingSelf : ℚ
  speedSelf : JSNum
  majority : ℚ
  hist : String → List (JSNum × ℚ)
  now : ℚ

/-- JS multiplication of a number by a rational constant (sign-aware for the
infinities; Infinity * 0 is NaN). -/
def jmulC (a : JSNum) (c : ℚ) : JSNum :=
  match a with
  | .nan => .nan
  | .inf => if c > 0 then .inf else if c < 0 then .ninf else .nan
  | .ninf => if c > 0 then .ninf else if c < 0 then .inf else .nan
  | .fin q => .fin (q * c)

/-- predictPosition for self and the neighbor at horizon t followed by the
great-circle distance of the two predicted points: the body of the
predicted-collision loop, src/Backend/index.js lines 340-344. -/
def dPred (T : Trig) (c : Ctx) (latO lonO : JSNum) (headingOther : ℚ)
    (speedOther : JSNum) (t : ℕ) : JSNum :=
  let selfPred := projectPointJ T (.fin c.baseLat) (.fin c.baseLon) c.headingSelf
      (jmulC c.speedSelf (t : ℚ))
  let otherPred := projectPointJ T latO lonO headingOther
      (jmulC speedOther (t : ℚ))
  haversineJ T selfPred.1 selfPred.2 otherPred.1 otherPred.2

/-- The prediction timesteps t = 1, 2, ..., LOOKAHEAD_S with PREDICT_STEP 1.  -/
def predictTimes : List ℕ := [1, 2, 3, 4, 5]

/-- The scan of the predicted-collision loop: the first timestep whose
predicted distance passes dPred <= COLLISION_RADIUS, together with that
distance; the loop breaks there. -/
def firstHit (f : ℕ → JSNum) : List ℕ → Option (ℕ × JSNum)
  | [] => none
  | t :: ts => if JSNum.jleC (f t) COLLISION_RADIUS then some (t, f t)
               else firstHit f ts

/-- The origin payload of a predicted collision (index.js lines 346-363). -/
def predPayloadSelf (uid : String) (other : Msg) (headingOther : ℚ)
    (speedOther : JSNum) (t : ℕ) (d : JSNum) : Threat :=
  { ttype := .predicted_collision
    tid := other.userId.coalesce (.str uid)
    tlat := other.latitude
    tlng := other.longitude
    sv := { userId := other.userId.coalesce (.str uid)
            latitude := other.latitude
            longitude := other.longitude
            speed := some speedOther
            heading := some headingOther }
    future_distance_m := some (round2J d)
    time_s := some (t : ℚ)
    distance_m := none
    deceleration := none
    message := "Predicted collision based on future paths" }

/-- The counterpart payload of a predicted collision (index.js 370-386). -/
def predPayloadPeer (c : Ctx) (t : ℕ) (d : JSNum) : Threat :=
  { ttype := .predicted_collision
    tid := .str c.selfId
    tlat := .num c.baseLat
    tlng := .num c.baseLon
    sv := { userId := .str c.selfId
            latitude := .num c.baseLat
            longitude := .num c.baseLon
            speed := some c.speedSelf
            heading := some c.headingSelf }
    future_distance_m := some (round2J d)
    time_s := some (t : ℚ)
    distance_m := none
    deceleration := none
    message := "Predicted collision based on future paths" }

/-- The origin payload of a rear-end threat (index.js lines 413-429). -/
def rearPayloadSelf (uid : String) (other : Msg) (headingOther : ℚ)
    (speedOther : JSNum) (distNow decel : JSNum) : Threat :=
  { ttype := .rear_end
    tid := other.userId.coalesce (.str uid)
    tlat := other.latitude
    tlng := other.longitude
    sv := { userId := other.userId.coalesce (.str uid)
            latitude := other.latitude
            longitude := other.longitude
            speed := some speedOther
            heading := some headingOther }
    future_distance_m := none
    time_s := none
    distance_m := some (round2J distNow)
    deceleration := some (round2J decel)
    message := "Rear-end danger! Front vehicle is braking hard" }

/-- The counterpart payload of a rear-end threat (index.js lines 436-452). -/
def rearPayloadPeer (c : Ctx) (distNow decel : JSNum) : Threat :=
  { ttype := .rear_end
    tid := .str c.selfId
    tlat := .num c.baseLat
    tlng := .num c.baseLon
    sv := { userId := .str c.selfId
            latitude := .num c.baseLat
            longitude := .num c.baseLon
            speed := some c.speedSelf
            heading := some c.headingSelf }
    future_distance_m := none
    time_s := none
    distance_m := some (round2J distNow)
    deceleration := some (round2J decel)
    message := "Vehicle behind may hit you" }

/-- The origin payload of a wrong-direction threat (index.js lines 471-485);
its sourceVehicle has no speed field. -/
def wrongPayloadSelf (uid : String) (other : Msg) (headingOther : ℚ)
    (distNow : JSNum) : Threat :=
  { ttype := .wrong_direction
    tid := other.userId.coalesce (.str uid)
    tlat := other.latitude
    tlng := other.longitude
    sv := { userId := other.userId.coalesce (.str uid)
            latitude := other.latitude
            longitude := other.longitude
            speed := none
            heading := some headingOther }
    future_distance_m := none
    time_s := none
    distance_m := some (round2J distNow)
    deceleration := none
    message := "Vehicle traveling in opposite direction" }

/-- The counterpart payload of a wrong-direction threat (index.js 492-506). -/
def wrongPayloadPeer (c : Ctx) (distNow : JSNum) : Threat :=
  { ttype := .wrong_direction
    tid := .str c.selfId
    tlat := .num c.baseLat
    tlng := .num c.baseLon
    sv := { userId := .str c.selfId
            latitude := .num c.baseLat
            longitude := .num c.baseLon
            speed := none
            heading := some c.headingSelf }
    future_distance_m := none
    time_s := none
    distance_m := some (round2J distNow)
    deceleration := none
    message := "You are going opposite to traffic" }

/-- The wrong-direction trigger (src/Backend/index.js line 470). -/
def wrongDirCond (majority headingOther : ℚ) (distNow : JSNum) : Bool :=
  decide (headingDiff headingOther majority ≥ WRONG_DIR_DIFF)
    && JSNum.jleC distNow 40

/-- The rear-end detection block (src/Backend/index.js lines 402-465): needs
two history samples for the counterpart; dt falls back to 1 second only when
the sample timestamps are equal (the || 1 applies to an exact 0). -/
def rearCheck (c : Ctx) (uid : String) (other : Msg) (headingOther : ℚ)
    (speedOther : JSNum) (distNow : JSNum)
    (otherHist : List (JSNum × ℚ)) : Option (Threat × Threat) :=
  match otherHist.reverse with
  | lastS :: prevS :: _ =>
      let dt0 := (lastS.2 - prevS.2) / 1000
      let dt := if dt0 = 0 then 1 else dt0
      let decel := JSNum.jdivC (JSNum.jsub prevS.1 lastS.1) dt
      let closingSpeed := JSNum.jsub c.speedSelf speedOther
      if JSNum.jgeC decel SUDDEN_DECEL && JSNum.jleC distNow REAR_END_DISTANCE
          && JSNum.jgtC closingSpeed (1/2) then
        some (rearPayloadSelf uid other headingOther speedOther distNow decel,
              rearPayloadPeer c distNow decel)
      else none
  | _ => none

/-- One iteration of the neighbor loop of src/Backend/index.js lines 313-523:
the missing-payload and staleness gates, then the three predictors in source
order; the first match produces the single (origin payload, counterpart
payload) pair for the neighbor and ends its processing. -/
def processNeighbor (T : Trig) (c : Ctx) (uid : String) (entry : StoredEntry) :
    Option (Threat × Threat) :=
  match entry with
  | .missing => none
  | .malformed => none
  | .ok other =>
    match dateMs (other.timestamp.orElse (.num 0)) with
    | none => none
    | some ts =>
      if c.now - ts > STALE_MS then none
      else
        let headingOther := normalizeHeadingJV other.heading
        let speedOther := speedNorm other.speed
        let latO := jsToNumber other.latitude
        let lonO := jsToNumber other.longitude
        let distNow := haversineJ T (.fin c.baseLat) (.fin c.baseLon) latO lonO
        match firstHit (dPred T c latO lonO headingOther speedOther) predictTimes with
        | some (t, d) =>
            some (predPayloadSelf uid other headingOther speedOther t d,
                  predPayloadPeer c t d)
        | none =>
            let otherHist := match other.userId with
              | .str s => c.hist s
              | _ => []
            match rearCheck c uid other headingOther speedOther distNow otherHist with
            | some pr => some pr
            | none =>
                if wrongDirCond c.majority headingOther distNow then
                  some (wrongPayloadSelf uid other headingOther distNow,
                        wrongPayloadPeer c distNow)
                else none

/-- avgHeading (src/Backend/index.js lines 299-308): vector mean of the
headings; an exactly zero resultant yields 0. -/
def avgHeading (T : Trig) (arr : List ℚ) : ℚ :=
  let x := (arr.map (fun h => T.cos (h * T.pi / 180))).sum
  let y := (arr.map (fun h => T.sin (h * T.pi / 180))).sum
  if x = 0 ∧ y = 0 then 0 else rad2deg T (T.atan2 y x)

/-- majorityDirection (line 309): the normalized average heading. -/
def majorityOf (T : Trig) (arr : List ℚ) : ℚ :=
  normalizeHeadingQ (avgHeading T arr)

/-- The environment of one message: outcome of each Redis operation, the
stored neighbor payloads, and which channels are open for peer pushes. -/
structure Env where
  geoAddOk : Bool
  setOk : Bool
  radius : Option (List String)
  mgetOk : Bool
  store : String → StoredEntry
  openChans : ℕ → Bool

/-- The process state the handler mutates: the session registry
(userId to channel, in Map insertion order) and the speed history. -/
structure SState where
  sessions : List (String × ℕ)
  hist : String → List (JSNum × ℚ)

/-- JS Map.set: update in place if the key exists, else append. -/
def mapSet (l : List (String × ℕ)) (k : String) (v : ℕ) : List (String × ℕ) :=
  match l with
  | [] => [(k, v)]
  | (k0, v0) :: rest =>
      if k0 = k then (k0, v) :: rest else (k0, v0) :: mapSet rest k v

/-- JS Map.get. -/
def mapGet (l : List (String × ℕ)) (k : String) : Option ℕ :=
  match l with
  | [] => none
  | (k0, v0) :: rest => if k0 = k then some v0 else mapGet rest k

/-- A message the handler sends on a channel. -/
inductive OutMsg where
  | err (reason : String)
  | ack (threats : List Threat)
  | push (t : Threat)
deriving DecidableEq, Repr

/-- An observable effect of one message pipeline, in order of occurrence. -/
inductive Effect where
  | geoAdd (id : String) (lon lat : ℚ) (ok : Bool)
  | setData (id : String) (ttl : ℚ) (ok : Bool)
  | geoQuery (radius : ℚ) (ok : Bool)
  | mgetQ (keys : List String) (ok : Bool)
  | sendOrigin (p : OutMsg)
  | sendPeer (uid : String) (p : OutMsg)
deriving DecidableEq, Repr

/-- The last 5 elements of a list (Array.prototype.slice(-5)). -/
def takeLast (n : ℕ) (l : List (JSNum × ℚ)) : List (JSNum × ℚ) :=
  (l.reverse.take n).reverse

/-- usersData[i] for neighbor u: the stored entry when mGet succeeded, and
undefined (missing) for every key when mGet threw (usersData stays []). -/
def entryOf (env : Env) (u : String) : StoredEntry :=
  if env.mgetOk then env.store u else .missing

/-- The gyro normalization and sudden-turn radius boost
(src/Backend/index.js lines 202-206). -/
def nearbyRadiusOf (T : Trig) (m : Msg) : ℚ :=
  let gyroZRaw := jsToNumber (m.gyroZ.coalesce (.num 0))
  let gyroZDeg := if JSNum.jltC (JSNum.jabs gyroZRaw) (1/2)
    then jmulC gyroZRaw (180 / T.pi) else gyroZRaw
  if JSNum.jgeC (JSNum.jabs gyroZDeg) 45 then 75 + 8 else 75

/-- The full message pipeline of src/Backend/index.js lines 154-536 for a
successfully parsed inbound JSON document: validation, session rebind, geo
and telemetry upserts (their failures are caught and logged), the radius
query (a failure yields an empty neighbor list), the batched fetch (a
failure makes every payload missing), self history append, majority heading,
the neighbor loop, and the final acknowledgment.  Returns the new state and
the ordered effect trace. -/
def handleMessage (T : Trig) (env : Env) (st : SState) (chan : ℕ) (now : ℚ)
    (inb : Inbound) : SState × List Effect :=
  match validate inb with
  | .error r => (st, [.sendOrigin (.err r)])
  | .ok (uid, baseLat, baseLon, m) =>
    let st1 : SState := { st with sessions := mapSet st.sessions uid chan }
    let eGeo := Effect.geoAdd uid baseLon baseLat env.geoAddOk
    let ttl : ℚ := if JSNum.jgtC (jsToNumber m.speed) 5 then 10 else 30
    let eSet := Effect.setData uid ttl env.setOk
    let radiusReq := nearbyRadiusOf T m
    let eQuery := Effect.geoQuery radiusReq env.radius.isSome
    let nearby := env.radius.getD []
    let otherIds := nearby.filter (fun u => u ≠ uid)
    if otherIds.isEmpty then
      (st1, [eGeo, eSet, eQuery, .sendOrigin (.ack [])])
    else
      let eM := Effect.mgetQ (otherIds.map (fun u => "userData:" ++ u)) env.mgetOk
      let headingSelf := normalizeHeadingJV m.heading
      let speedSelf := speedNorm m.speed
      let hist1 := fun k =>
        if k = uid then takeLast 5 (st.hist uid ++ [(speedSelf, now)])
        else st.hist k
      let st2 : SState := { st1 with hist := hist1 }
      let allHeadings := headingSelf :: (otherIds.map (entryOf env)).filterMap
        (fun e =>
          match e with
          | .ok mm => some (normalizeHeadingJV mm.heading)
          | _ => none)
      let majority := majorityOf T allHeadings
      let c : Ctx := ⟨uid, baseLat, baseLon, headingSelf, speedSelf, majority,
        hist1, now⟩
      let threats := otherIds.filterMap
        (fun u => (processNeighbor T c u (entryOf env u)).map Prod.fst)
      let peerSends := otherIds.filterMap (fun u =>
        match processNeighbor T c u (entryOf env u) with
        | some pr =>
            match mapGet st1.sessions u with
            | some ch =>
                if env.openChans ch then some (Effect.sendPeer u (.push pr.2))
                else none
            | none => none
        | none => none)
      (st2, [eGeo, eSet, eQuery, eM] ++ peerSends ++ [.sendOrigin (.ack threats)])

/-- The close handler of src/Backend/index.js lines 538-547: iterate the
session map in insertion order, delete the first entry whose socket is the
closed channel, and break. -/
def onClose (ch : ℕ) : List (String × ℕ) → List (String × ℕ)
  | [] => []
  | (u, c) :: rest => if c = ch then rest else (u, c) :: onClose ch rest

-- ---------------------------------------------------------------------------
-- General JS binary arithmetic on JSNum (needed by the local-ENU CPA math of
-- src/unnamed/part_000).
-- ---------------------------------------------------------------------------

/-- JS addition. -/
def jadd : JSNum → JSNum → JSNum
  | .nan, _ => .nan
  | _, .nan => .nan
  | .inf, .ninf => .nan
  | .ninf, .inf => .nan
  | .inf, _ => .inf
  | _, .inf => .inf
  | .ninf, _ => .ninf
  | _, .ninf => .ninf
  | .fin a, .fin b => .fin (a + b)

/-- JS multiplication. -/
def jmul : JSNum → JSNum → JSNum
  | .nan, _ => .nan
  | _, .nan => .nan
  | .inf, .inf => .inf
  | .inf, .ninf => .ninf
  | .ninf, .inf => .ninf
  | .ninf, .ninf => .inf
  | .inf, .fin q => if q > 0 then .inf else if q < 0 then .ninf else .nan
  | .fin q, .inf => if q > 0 then .inf else if q < 0 then .ninf else .nan
  | .ninf, .fin q => if q > 0 then .ninf else if q < 0 then .inf else .nan
  | .fin q, .ninf => if q > 0 then .ninf else if q < 0 then .inf else .nan
  | .fin a, .fin b => .fin (a * b)

/-- JS division (division by the positive zero of a rational 0). -/
def jdiv : JSNum → JSNum → JSNum
  | .nan, _ => .nan
  | _, .nan => .nan
  | .inf, .inf => .nan
  | .inf, .ninf => .nan
  | .ninf, .inf => .nan
  | .ninf, .ninf => .nan
  | .inf, .fin q => if q < 0 then .ninf else .inf
  | .ninf, .fin q => if q < 0 then .inf else .ninf
  | .fin _, .inf => .fin 0
  | .fin _, .ninf => .fin 0
  | .fin a, .fin b =>
      if b = 0 then (if a = 0 then .nan else if a > 0 then .inf else .ninf)
      else .fin (a / b)

/-- JS unary minus. -/
def jneg : JSNum → JSNum
  | .nan => .nan
  | .inf => .ninf
  | .ninf => .inf
  | .fin q => .fin (-q)

/-- JS Math.min. -/
def jminN : JSNum → JSNum → JSNum
  | .nan, _ => .nan
  | _, .nan => .nan
  | .ninf, _ => .ninf
  | _, .ninf => .ninf
  | .inf, b => b
  | a, .inf => a
  | .fin a, .fin b => .fin (min a b)

/-- JS comparison a > b on two JSNum values: false when either is NaN. -/
def jgtN : JSNum → JSNum → Bool
  | .nan, _ => false
  | _, .nan => false
  | .inf, .inf => false
  | .inf, _ => true
  | .ninf, _ => false
  | .fin _, .inf => false
  | .fin _, .ninf => true
  | .fin a, .fin b => decide (b < a)

/-- Math.hypot on two JSNum values: an infinite component dominates even a
NaN one; otherwise NaN propagates; finite values go through the sqrt of the
sum of squares (the double fused computation is idealised by the oracle). -/
def jhypot (T : Trig) (a b : JSNum) : JSNum :=
  match a, b with
  | .inf, _ => .inf
  | .ninf, _ => .inf
  | _, .inf => .inf
  | _, .ninf => .inf
  | .nan, _ => .nan
  | _, .nan => .nan
  | .fin x, .fin y => .fin (T.sqrt (x * x + y * y))

namespace P000

/-- A 2-vector of JS numbers in the local frame of part_000 (x = north,
y = east, per the comments at lines 392 and 430-431). -/
structure Vec2 where
  x : JSNum
  y : JSNum
deriving DecidableEq, Repr

/-- computeCPA_local of src/unnamed/part_000 lines 373-390: clamped time of
closest approach over [0, maxT] and the distance at that time. -/
def computeCPA (T : Trig) (selfPos selfVel otherPos otherVel : Vec2)
    (maxT : ℚ) : JSNum × JSNum :=
  let r0x := JSNum.jsub selfPos.x otherPos.x
  let r0y := JSNum.jsub selfPos.y otherPos.y
  let vx := JSNum.jsub selfVel.x otherVel.x
  let vy := JSNum.jsub selfVel.y otherVel.y
  let vDotV := jadd (jmul vx vx) (jmul vy vy)
  let tStar :=
    if JSNum.jgtC vDotV (1/1000000) then
      JSNum.jmax (.fin 0) (jminN (.fin maxT)
        (jneg (jdiv (jadd (jmul r0x vx) (jmul r0y vy)) vDotV)))
    else .fin 0
  let aPosX := jadd selfPos.x (jmul selfVel.x tStar)
  let aPosY := jadd selfPos.y (jmul selfVel.y tStar)
  let bPosX := jadd otherPos.x (jmul otherVel.x tStar)
  let bPosY := jadd otherPos.y (jmul otherVel.y tStar)
  (tStar, jhypot T (JSNum.jsub aPosX bPosX) (JSNum.jsub aPosY bPosY))

/-- The threat types of the four-predictor variant. -/
inductive TType000 where
  | intersection_collision
  | rear_collision
  | wrong_direction
  | overtake
deriving DecidableEq, Repr

/-- A threat payload of src/unnamed/part_000 (no top-level id/lat/lng; just
the sourceVehicle and the per-type metrics). -/
structure Threat000 where
  ttype : TType000
  sv : SrcVehicle
  distance_m : Option JSNum
  timeToCPA_s : Option JSNum
  lateral_m : Option JSNum
  message : String
deriving DecidableEq, Repr

/-- The per-message context of the part_000 neighbor loop. -/
structure Ctx000 where
  selfId : String
  baseLat : ℚ
  baseLon : ℚ
  headingSelf : ℚ
  speedSelf : JSNum
  now : ℚ

/-- The sourceVehicle describing the neighbor, as part_000 builds it. -/
def svOther (uid : String) (other : Msg) (speedOther : JSNum)
    (headingOther : ℚ) : SrcVehicle :=
  { userId := other.userId.coalesce (.str uid)
    latitude := other.latitude
    longitude := other.longitude
    speed := some speedOther
    heading := some headingOther }

/-- The sourceVehicle describing self, as part_000 builds it. -/
def svSelf (c : Ctx000) : SrcVehicle :=
  { userId := .str c.selfId
    latitude := .num c.baseLat
    longitude := .num c.baseLon
    speed := some c.speedSelf
    heading := some c.headingSelf }

/-- One iteration of the part_000 neighbor loop (lines 416-609): the
missing-payload and staleness gates, then intersection, rear-collision,
wrong-direction and overtake in source order.  Returns the payload pushed to
the origin (if any) and the payload for the counterpart socket (if any): the
rear block can notify only the counterpart when self is the leading car. -/
def processNeighbor000 (T : Trig) (c : Ctx000) (uid : String)
    (entry : StoredEntry) : Option Threat000 × Option Threat000 :=
  match entry with
  | .missing => (none, none)
  | .malformed => (none, none)
  | .ok other =>
    match dateMs (other.timestamp.orElse (.num 0)) with
    | none => (none, none)
    | some ts =>
      if c.now - ts > STALE_MS then (none, none)
      else
        let latO := jsToNumber other.latitude
        let lonO := jsToNumber other.longitude
        let mPerDegLon := T.cos (deg2rad T c.baseLat) * 111320
        let dLat := JSNum.jsub latO (.fin c.baseLat)
        let dLon := JSNum.jsub lonO (.fin c.baseLon)
        let posSelf : Vec2 := ⟨.fin 0, .fin 0⟩
        let posOther : Vec2 := ⟨jmulC dLat 111320, jmulC dLon mPerDegLon⟩
        let rSelf := deg2rad T c.headingSelf
        let velSelf : Vec2 := ⟨jmulC c.speedSelf (T.cos rSelf),
                               jmulC c.speedSelf (T.sin rSelf)⟩
        let headingOther := normalizeHeadingJV other.heading
        let speedOther := speedNorm other.speed
        let rOther := deg2rad T headingOther
        let velOther : Vec2 := ⟨jmulC speedOther (T.cos rOther),
                                jmulC speedOther (T.sin rOther)⟩
        let dist := haversineJ T (.fin c.baseLat) (.fin c.baseLon) latO lonO
        let hdiff := headingDiff c.headingSelf headingOther
        -- 1) intersection (T/L) detection, lines 447-475
        let interGuard := JSNum.jgeC c.speedSelf (278/100)
          && JSNum.jgeC speedOther (278/100)
          && decide (60 ≤ hdiff) && decide (hdiff ≤ 120)
        let cpaI := computeCPA T posSelf velSelf posOther velOther 3
        if interGuard && (JSNum.jleC cpaI.2 8 && JSNum.jleC cpaI.1 3) then
          (some { ttype := .intersection_collision
                  sv := svOther uid other speedOther headingOther
                  distance_m := some (round2J cpaI.2)
                  timeToCPA_s := some (round2J cpaI.1)
                  lateral_m := none
                  message := "Possible T/L intersection collision" },
           some { ttype := .intersection_collision
                  sv := svSelf c
                  distance_m := some (round2J cpaI.2)
                  timeToCPA_s := some (round2J cpaI.1)
                  lateral_m := none
                  message := "Possible T/L intersection collision" })
        else
          -- 2) rear-collision detection via CPA, lines 481-533
          let cpaR := computeCPA T posSelf velSelf posOther velOther 3
          let rx := JSNum.jsub posOther.x posSelf.x
          let ry := JSNum.jsub posOther.y posSelf.y
          let vrx := JSNum.jsub velOther.x velSelf.x
          let vry := JSNum.jsub velOther.y velSelf.y
          let rMag := jhypot T rx ry
          let closingR := if JSNum.jgtC rMag (1/1000) then
              jneg (jdiv (jadd (jmul rx vrx) (jmul ry vry)) rMag)
            else .fin 0
          let rearGuard := decide (hdiff ≤ 30)
            && (JSNum.jgtC closingR (1/2) && JSNum.jleC cpaR.1 3
                && JSNum.jleC cpaR.2 (15 + 5))
          if rearGuard then
            let alongSelf := jadd (jmulC rx (T.cos rSelf)) (jmulC ry (T.sin rSelf))
            if JSNum.jgtC alongSelf 0 then
              (some { ttype := .rear_collision
                      sv := svOther uid other speedOther headingOther
                      distance_m := some (round2J cpaR.2)
                      timeToCPA_s := some (round2J cpaR.1)
                      lateral_m := none
                      message := "Risk of rear-end collision: vehicle ahead is slowing or you are closing fast" },
               some { ttype := .rear_collision
                      sv := svSelf c
                      distance_m := some (round2J cpaR.2)
                      timeToCPA_s := some (round2J cpaR.1)
                      lateral_m := none
                      message := "Risk of rear-end collision: vehicle behind is closing fast" })
            else
              (none,
               some { ttype := .rear_collision
                      sv := svSelf c
                      distance_m := some (round2J cpaR.2)
                      timeToCPA_s := some (round2J cpaR.1)
                      lateral_m := none
                      message := "Risk of rear-end collision: you are closing fast on a vehicle ahead" })
          else
            -- 3) wrong-direction detection, lines 537-557
            if decide (150 ≤ hdiff) && JSNum.jleC dist 30
                && (JSNum.jgtC c.speedSelf (1/10) || JSNum.jgtC speedOther (1/10)) then
              (some { ttype := .wrong_direction
                      sv := svOther uid other speedOther headingOther
                      distance_m := some (round2J dist)
                      timeToCPA_s := none
                      lateral_m := none
                      message := "Vehicle going in opposite direction" },
               some { ttype := .wrong_direction
                      sv := svSelf c
                      distance_m := some (round2J dist)
                      timeToCPA_s := none
                      lateral_m := none
                      message := "Nearby vehicle moving in opposite direction" })
            else
              -- 4) overtake detection, lines 561-603
              if decide (hdiff ≤ 20) && JSNum.jleC dist 12
                  && jgtN speedOther (jadd c.speedSelf (.fin (3/2))) then
                let lateral := JSNum.jabs (JSNum.jsub (jmulC rx (T.sin rSelf))
                  (jmulC ry (T.cos rSelf)))
                if JSNum.jleC lateral 4 then
                  let cpaO := computeCPA T posSelf velSelf posOther velOther 3
                  let rMag2 := jadd (jmul rx rx) (jmul ry ry)
                  let closingO := if JSNum.jgtC rMag2 (1/1000000) then
                      jneg (jdiv (jadd (jmul rx vrx) (jmul ry vry))
                        (Trig.jsqrt T rMag2))
                    else .fin 0
                  if JSNum.jgtC closingO (3/10) && JSNum.jleC cpaO.1 2 then
                    (some { ttype := .overtake
                            sv := svOther uid other speedOther headingOther
                            distance_m := some (round2J dist)
                            timeToCPA_s := none
                            lateral_m := some (round2J lateral)
                            message := "Vehicle overtaking from side" },
                     some { ttype := .overtake
                            sv := svSelf c
                            distance_m := some (round2J dist)
                            timeToCPA_s := none
                            lateral_m := some (round2J lateral)
                            message := "Overtaking detected near vehicle" })
                  else (none, none)
                else (none, none)
              else (none, none)

end P000

-- ---------------------------------------------------------------------------
-- A concrete oracle and concrete scenarios for witness runs.
-- ---------------------------------------------------------------------------

/-- Math.PI: the exact rational value of the IEEE double closest to pi. -/
def piQ : ℚ := 884279719003555 / 281474976710656

/-- Fuel-based integer square root (digit recursion), so that it reduces in
the kernel; the fuel bounds the quarter-splitting depth. -/
def isqrtAux : ℕ → ℕ → ℕ
  | 0, _ => 0
  | fuel + 1, n =>
      if n < 2 then n
      else
        let r := 2 * isqrtAux fuel (n / 4)
        if (r + 1) * (r + 1) ≤ n then r + 1 else r

/-- Integer square root (floor) for inputs below 4^600. -/
def isqrt (n : ℕ) : ℕ := isqrtAux 600 n

/-- Whether a nonnegative rational is the square of a rational. -/
def isSqRat (q : ℚ) : Bool :=
  decide (0 ≤ q.num) &&
    decide (isqrt q.num.toNat * isqrt q.num.toNat = q.num.toNat) &&
    decide (isqrt q.den * isqrt q.den = q.den)

/-- Exact square root of a rational square (junk elsewhere). -/
def exactSqrt (q : ℚ) : ℚ :=
  (isqrt q.num.toNat : ℚ) / (isqrt q.den : ℚ)

/-- The concrete oracle used by the witness and counterexample runs.  It is
exact, or within an error far below every decision margin of those runs, at
every argument they evaluate: sin and asin are the identity and cos is 1 on
arguments of magnitude at most 1/1000 (the IEEE values differ by less than
1e-9 there); sin, cos take their exact IEEE values at 0, pi/2 and pi (for
Math.PI, cos is exactly -1; sin(Math.PI) is 1.2e-16, idealised to 0);
atan2(y, x) for positive x is y/x, exact at the evaluated points (y = 0 or
x = 1); sqrt is exact on rational squares and 1 on arguments at least 1/2
(the runs only reach that branch at 1 - eps with eps below 1e-9). -/
def linTrig : Trig :=
  { sin := fun x => if |x| ≤ 1/1000 then x else if x = piQ/2 then 1 else 0
    cos := fun x => if |x| ≤ 1/1000 then 1
      else if x = piQ/2 then 0 else if x = piQ then -1 else 0
    asin := fun x => if |x| ≤ 1/1000 then x else 0
    atan2 := fun y x => if 0 < x then y / x else 0
    sqrt := fun q => if isSqRat q then exactSqrt q else if 1/2 ≤ q then 1 else 0
    pi := piQ }

/-- Server receive time used by the scenarios (ms). -/
def now0 : ℚ := 1000000

/-- Latitude 23 meters north of the equator, in degrees. -/
def latB1 : ℚ := 23 / 6371000 * 180 / piQ

/-- C1 witness context: vehicle A at the origin, heading 0, speed 10 m/s. -/
def ctx1 : Ctx :=
  ⟨"A", 0, 0, 0, .fin 10, 0, fun _ => [], now0⟩

/-- C1 witness neighbor: vehicle B stationary 23 m ahead of A along heading
0; fresh timestamp.  The predicted separations are 13, 3, 7, 17, 27 m, so
the first (and only) hit of the predicted-collision scan is t = 2, d = 3. -/
def other1 : Msg :=
  ⟨.str "B", .num latB1, .num 0, .num 0, .num 0, .undef, .num (now0 - 1000)⟩

/-- Valid telemetry for vehicle A used by the handler-level witnesses. -/
def msg1 : Msg :=
  ⟨.str "A", .num 0, .num 0, .num 10, .num 0, .undef, .num now0⟩

/-- Environment for the handler-level witnesses: one neighbor B with the
other1 payload; every store operation succeeds; no peer channel open. -/
def env1 : Env :=
  { geoAddOk := true
    setOk := true
    radius := some ["A", "B"]
    mgetOk := true
    store := fun u => if u = "B" then .ok other1 else .missing
    openChans := fun _ => false }

/-- The empty process state. -/
def st0 : SState := ⟨[], fun _ => []⟩

/-- Latitude 9 meters north of the equator, in degrees. -/
def latB4 : ℚ := 9 / 6371000 * 180 / piQ

/-- C4 context: vehicle A at the origin, heading 0, speed 15.1 m/s; the
speed history of B holds 16 m/s and then 14.5 m/s taken 500 ms apart. -/
def ctx4 : Ctx :=
  ⟨"A", 0, 0, 0, .fin (151/10), 0,
    fun k => if k = "B" then [(.fin 16, now0 - 1000), (.fin (29/2), now0 - 500)]
      else [],
    now0⟩

/-- C4 neighbor: vehicle B 9 m ahead of A along heading 0, current speed
14.5 m/s, fresh timestamp.  Predicted separations 8.4, 7.8, 7.2, 6.6, 6 m
(never within 4 m), current distance 9 m, closing speed 0.6 m/s. -/
def other4 : Msg :=
  ⟨.str "B", .num latB4, .num 0, .num (29/2), .num 0, .undef,
    .num (now0 - 500)⟩

/-- C3 context (part_000): vehicle A at the origin, heading 0 (north axis),
speed 8 m/s. -/
def ctx3 : P000.Ctx000 := ⟨"A", 0, 0, 0, .fin 8, now0⟩

/-- C3 neighbor: vehicle B 24 m north and 24 m west of A, heading 90,
speed 8 m/s, fresh timestamp.  In the local frame posOther = (24, -24),
velSelf = (8, 0), velOther = (0, 8): tStar = 3, CPA distance 0. -/
def other3 : Msg :=
  ⟨.str "B", .num (24 / 111320), .num (-24 / 111320), .num 8, .num 90,
    .undef, .num (now0 - 1000)⟩

/-- C8 neighbor: a payload whose timestamp is 10 s older than the server
receive time (10000 ms > STALE_MS = 4000 ms). -/
def otherStale : Msg :=
  ⟨.str "B", .num latB1, .num 0, .num 0, .num 0, .undef,
    .num (now0 - 10000)⟩

/-- C8 environment: the only neighbor payload is the stale one. -/
def env8 : Env :=
  { geoAddOk := true
    setOk := true
    radius := some ["A", "B"]
    mgetOk := true
    store := fun u => if u = "B" then .ok otherStale else .missing
    openChans := fun _ => true }

/-- C9 telemetry: a speed field holding the non-numeric string abc; all
other fields valid. -/
def msg9 : Msg :=
  ⟨.str "N", .num 0, .num 0, .str "abc", .num 0, .undef, .num now0⟩

/-- C9 environment: one neighbor M at the same position, fresh. -/
def otherM : Msg :=
  ⟨.str "M", .num 0, .num 0, .num 0, .num 0, .undef, .num now0⟩

/-- C9 environment: the neighbor M is returned by the radius query. -/
def env9 : Env :=
  { geoAddOk := true
    setOk := true
    radius := some ["N", "M"]
    mgetOk := true
    store := fun u => if u = "M" then .ok otherM else .missing
    openChans := fun _ => false }

/-- C6 telemetry: a plain valid message. -/
def msg6 : Msg :=
  ⟨.str "U", .num 0, .num 0, .num 0, .num 0, .undef, .num now0⟩

/-- C6 environment: the geo upsert fails; everything else succeeds and the
radius query returns no neighbors. -/
def env6 : Env :=
  { geoAddOk := false
    setOk := true
    radius := some []
    mgetOk := true
    store := fun _ => .missing
    openChans := fun _ => false }

/-- C7: telemetry from the same channel under two different user ids. -/
def msgA : Msg := ⟨.str "a", .num 0, .num 0, .num 0, .num 0, .undef, .num 0⟩

/-- Second message on the same channel, different user id. -/
def msgB : Msg := ⟨.str "b", .num 0, .num 0, .num 0, .num 0, .undef, .num 0⟩

/-- A quiet environment (no neighbors) used to build the C7 state. -/
def envQuiet : Env :=
  { geoAddOk := true
    setOk := true
    radius := some []
    mgetOk := true
    store := fun _ => .missing
    openChans := fun _ => false }

/-- The session registry after channel 7 sent telemetry as a and then as b:
both ids are bound to channel 7. -/
def sessionsAB : List (String × ℕ) :=
  (handleMessage linTrig envQuiet
    ((handleMessage linTrig envQuiet st0 7 0 (.obj msgA)).1) 7 0
    (.obj msgB)).1.sessions

/-- The invalidity condition of claim C5: the userId field is not a
non-empty string, or latitude or longitude is not a (finite) number.  A
non-object inbound document never has them. -/
def claimInvalid : Inbound → Prop
  | .nonObj _ => True
  | .obj m =>
      (∀ s : String, m.userId = .str s → s = "") ∨
      (∀ q : ℚ, m.latitude ≠ .num q) ∨ (∀ q : ℚ, m.longitude ≠ .num q)

/-- The clamped CPA of the part_000 intersection predictor: computeCPA_local
on the local-frame positions and velocities of self and the neighbor, with
maxT = PROJECTION_TIME_SECONDS = 3 (spelled out from processNeighbor000). -/
def interCpa (T : Trig) (c : P000.Ctx000) (mm : Msg) : JSNum × JSNum :=
  P000.computeCPA T ⟨.fin 0, .fin 0⟩
    ⟨jmulC c.speedSelf (T.cos (deg2rad T c.headingSelf)),
     jmulC c.speedSelf (T.sin (deg2rad T c.headingSelf))⟩
    ⟨jmulC (JSNum.jsub (jsToNumber mm.latitude) (.fin c.baseLat)) 111320,
     jmulC (JSNum.jsub (jsToNumber mm.longitude) (.fin c.baseLon))
       (T.cos (deg2rad T c.baseLat) * 111320)⟩
    ⟨jmulC (speedNorm mm.speed)
       (T.cos (deg2rad T (normalizeHeadingJV mm.heading))),
     jmulC (speedNorm mm.speed)
       (T.sin (deg2rad T (normalizeHeadingJV mm.heading)))⟩
    3

-- ---------------------------------------------------------------------------
-- Theorems.
-- ---------------------------------------------------------------------------

theorem onClose_eq_eraseP (ch : ℕ) (l : List (String × ℕ)) :
    onClose ch l = l.eraseP (fun p => p.2 == ch) := by
  induction l with
  | nil => rfl
  | cons hd tl ih =>
      obtain ⟨u, c⟩ := hd
      by_cases h : c = ch
      · simp [onClose, h, List.eraseP_cons]
      · simp [onClose, h, List.eraseP_cons, ih]

/-- Claim C7 counterexample: channel 7 delivers telemetry as a and then as
b, so both ids are bound to it; closing the channel removes only the first
binding and the binding of b to channel 7 survives, contradicting the claim
that no binding pointing to the closed channel remains. -/
theorem c7_counterexample :
    sessionsAB = [("a", 7), ("b", 7)] ∧
    onClose 7 sessionsAB = [("b", 7)] ∧
    ("b", 7) ∈ onClose 7 sessionsAB := by
  refine ⟨by decide, by decide, by decide⟩

/-- Claim C7 (amended): the close handler removes only the first binding (in
map insertion order) that maps to the closed channel; in particular, when at
most one binding maps to the channel, no binding to it remains. -/
theorem c7_close_removes_first_binding (ch : ℕ) (l : List (String × ℕ)) :
    onClose ch l = l.eraseP (fun p => p.2 == ch) ∧
    ((l.filter (fun p => p.2 == ch)).length ≤ 1 →
      ∀ p ∈ onClose ch l, p.2 ≠ ch) := by
  refine ⟨onClose_eq_eraseP ch l, ?_⟩
  induction l with
  | nil => intro _ p hp; simp [onClose] at hp
  | cons hd tl ih =>
      obtain ⟨u, c⟩ := hd
      intro hlen p hp hpc
      by_cases h : c = ch
      · subst h
        simp only [onClose, if_pos rfl] at hp
        have hmem : p ∈ tl.filter (fun q => q.2 == c) :=
          List.mem_filter.2 ⟨hp, by simpa using hpc⟩
        have h1 : 0 < (tl.filter (fun q => q.2 == c)).length :=
          List.length_pos_of_mem hmem
        have h2 : (List.filter (fun q => q.2 == c) ((u, c) :: tl)).length =
            (tl.filter (fun q => q.2 == c)).length + 1 := by
          simp [List.filter_cons]
        omega
      · simp only [onClose, if_neg h] at hp
        rcases List.mem_cons.mp hp with rfl | hp2
        · exact h hpc
        · exact ih (by simpa [List.filter_cons, h] using hlen) p hp2 hpc

theorem c7_witness :
    onClose 1 [("x", 1)] = List.eraseP (fun p => p.2 == 1) [("x", 1)] ∧
    (∀ p ∈ onClose 1 [("x", 1)], p.2 ≠ 1) :=
  ⟨(c7_close_removes_first_binding 1 [("x", 1)]).1,
   (c7_close_removes_first_binding 1 [("x", 1)]).2 (by decide)⟩

/-- Claim C9 counterexample: a speed field holding the string abc converts
to NaN and Math.max(0, NaN) is NaN, and the string Infinity passes through
as Infinity; neither is coerced to 0.  The message is not dropped either:
the full pipeline runs, the predictors execute on the NaN speed (every NaN
comparison fails, so the scan misses), and the origin gets a normal ack. -/
theorem c9_counterexample :
    speedNorm (.str "abc") = .nan ∧
    speedNorm (.str "Infinity") = .inf ∧
    (handleMessage linTrig env9 st0 1 now0 (.obj msg9)).2 =
      [.geoAdd "N" 0 0 true, .setData "N" 30 true, .geoQuery 75 true,
       .mgetQ ["userData:M"] true, .sendOrigin (.ack [])] := by
  refine ⟨by decide, by decide, by decide⟩

/-- Claim C9 (amended): the derived speed is never negative and never
-Infinity (finite values are clamped by Math.max(0, _)), but NaN and
+Infinity are not coerced to 0 and such samples are not dropped. -/
theorem c9_speed_clamp (v : JVal) :
    (∀ q : ℚ, speedNorm v = .fin q → 0 ≤ q) ∧ speedNorm v ≠ .ninf := by
  unfold speedNorm
  rcases jsToNumber (v.coalesce (.num 0)) with _ | _ | _ | q
  · exact ⟨fun q h => by simp [JSNum.jmax] at h, by simp [JSNum.jmax]⟩
  · exact ⟨fun q h => by simp [JSNum.jmax] at h, by simp [JSNum.jmax]⟩
  · refine ⟨fun q' h => ?_, by simp [JSNum.jmax]⟩
    simp [JSNum.jmax] at h
    exact le_of_eq h
  · refine ⟨fun q' h => ?_, by simp [JSNum.jmax]⟩
    simp [JSNum.jmax] at h
    rw [← h]
    exact le_max_left 0 q

theorem c9_witness : speedNorm (.num (-5)) = .fin 0 ∧ (0 : ℚ) ≤ 0 :=
  ⟨by decide, (c9_speed_clamp (.num (-5))).1 0 (by decide)⟩

/-- Claim C10: when the unit-vector sum of the headings of self and all
parsed neighbors is exactly the zero vector, avgHeading returns 0, the
majority direction is 0 degrees, and the wrong-direction trigger then
measures each counterpart against that 0-degree default. -/
theorem c10_majority_defaults_to_zero (T : Trig) (hs : List ℚ)
    (hx : (hs.map (fun h => T.cos (h * T.pi / 180))).sum = 0)
    (hy : (hs.map (fun h => T.sin (h * T.pi / 180))).sum = 0) :
    majorityOf T hs = 0 ∧
    ∀ hOther d, wrongDirCond (majorityOf T hs) hOther d =
      (decide (headingDiff hOther 0 ≥ WRONG_DIR_DIFF) && JSNum.jleC d 40) := by
  have hz : normalizeHeadingQ 0 = 0 := by decide
  have hm : majorityOf T hs = 0 := by
    unfold majorityOf avgHeading
    simp only [hx, hy, and_self, if_true, hz]
  exact ⟨hm, fun hOther d => by rw [hm]; rfl⟩

theorem c10_witness :
    ((([0, 180] : List ℚ).map
        (fun h => linTrig.cos (h * linTrig.pi / 180))).sum = 0) ∧
    majorityOf linTrig [0, 180] = 0 :=
  ⟨by decide,
   (c10_majority_defaults_to_zero linTrig [0, 180] (by decide) (by decide)).1⟩

theorem validate_claimInvalid (inb : Inbound) (h : claimInvalid inb) :
    ∃ r, (r = "missing userId" ∨ r = "invalid coordinates") ∧
      validate inb = .error r := by
  cases inb with
  | nonObj v => exact ⟨"missing userId", Or.inl rfl, rfl⟩
  | obj m =>
      rcases hu : m.userId with _ | _ | b | q | s
      · exact ⟨"missing userId", Or.inl rfl, by simp [validate, hu]⟩
      · exact ⟨"missing userId", Or.inl rfl, by simp [validate, hu]⟩
      · exact ⟨"missing userId", Or.inl rfl, by simp [validate, hu]⟩
      · exact ⟨"missing userId", Or.inl rfl, by simp [validate, hu]⟩
      · by_cases htrim : jsTrim s = ""
        · exact ⟨"missing userId", Or.inl rfl, by simp [validate, hu, htrim]⟩
        · rcases h with h | h | h
          · exact absurd (h s hu) (by
              intro hs
              exact htrim (by rw [hs]; rfl))
          · refine ⟨"invalid coordinates", Or.inr rfl, ?_⟩
            rcases hl : m.latitude with _ | _ | b2 | q2 | s2 <;>
              simp [validate, hu, htrim, hl] <;> exact absurd hl (h q2)
          · refine ⟨"invalid coordinates", Or.inr rfl, ?_⟩
            rcases hl : m.latitude with _ | _ | b2 | q2 | s2 <;>
              rcases hlo : m.longitude with _ | _ | b3 | q3 | s3 <;>
                simp [validate, hu, htrim, hl, hlo] <;> exact absurd hlo (h q3)

/-- Claim C5: when a parsed message has no non-empty-string userId or a
non-number latitude or longitude, the handler sends a single
status error response to the origin and stops: the state (session registry
and history) is unchanged and no geo upsert, telemetry write, radius query
or fetch is attempted. -/
theorem c5_validation_rejects_and_persists_nothing (T : Trig) (env : Env)
    (st : SState) (chan : ℕ) (now : ℚ) (inb : Inbound)
    (h : claimInvalid inb) :
    ∃ r, (r = "missing userId" ∨ r = "invalid coordinates") ∧
      handleMessage T env st chan now inb = (st, [.sendOrigin (.err r)]) := by
  obtain ⟨r, hr, he⟩ := validate_claimInvalid inb h
  exact ⟨r, hr, by unfold handleMessage; rw [he]⟩

theorem c5_witness :
    claimInvalid (.obj ⟨.num 5, .num 0, .num 0, .undef, .undef, .undef, .undef⟩) ∧
    ∃ r, (r = "missing userId" ∨ r = "invalid coordinates") ∧
      handleMessage linTrig env6 st0 1 0
          (.obj ⟨.num 5, .num 0, .num 0, .undef, .undef, .undef, .undef⟩) =
        (st0, [.sendOrigin (.err r)]) :=
  ⟨Or.inl (fun s h => nomatch h),
   c5_validation_rejects_and_persists_nothing linTrig env6 st0 1 0
     (.obj ⟨.num 5, .num 0, .num 0, .undef, .undef, .undef, .undef⟩)
     (Or.inl (fun s h => nomatch h))⟩

theorem firstHit_some_iff (f : ℕ → JSNum) (l : List ℕ) (t : ℕ) (d : JSNum) :
    firstHit f l = some (t, d) ↔
      ∃ l1 l2, l = l1 ++ t :: l2 ∧
        JSNum.jleC (f t) COLLISION_RADIUS = true ∧ d = f t ∧
        ∀ s ∈ l1, JSNum.jleC (f s) COLLISION_RADIUS = false := by
  induction l with
  | nil =>
      simp only [firstHit]
      constructor
      · intro h; exact absurd h (by simp)
      · rintro ⟨l1, l2, h, -⟩
        exact absurd h (by simp)
  | cons a as ih =>
      by_cases h : JSNum.jleC (f a) COLLISION_RADIUS = true
      · simp only [firstHit, h, if_true]
        constructor
        · intro he
          simp only [Option.some.injEq, Prod.mk.injEq] at he
          obtain ⟨rfl, rfl⟩ := he
          exact ⟨[], as, rfl, h, rfl, by simp⟩
        · rintro ⟨l1, l2, hdec, hle, rfl, hmiss⟩
          cases l1 with
          | nil =>
              simp only [List.nil_append, List.cons.injEq] at hdec
              rw [hdec.1]
          | cons b l1' =>
              simp only [List.cons_append, List.cons.injEq] at hdec
              have hb : JSNum.jleC (f a) COLLISION_RADIUS = false := by
                rw [hdec.1]
                exact hmiss b (by simp)
              rw [hb] at h
              exact absurd h (by simp)
      · simp only [firstHit]
        rw [if_neg h, ih]
        constructor
        · rintro ⟨l1, l2, hdec, hle, rfl, hmiss⟩
          refine ⟨a :: l1, l2, by simp [hdec], hle, rfl, ?_⟩
          intro s hs
          rcases List.mem_cons.mp hs with rfl | hs2
          · simpa using h
          · exact hmiss s hs2
        · rintro ⟨l1, l2, hdec, hle, rfl, hmiss⟩
          cases l1 with
          | nil =>
              simp only [List.nil_append, List.cons.injEq] at hdec
              rw [← hdec.1] at hle
              exact absurd hle h
          | cons b l1' =>
              simp only [List.cons_append, List.cons.injEq] at hdec
              exact ⟨l1', l2, hdec.2, hle, rfl, fun s hs =>
                hmiss s (List.mem_cons_of_mem b hs)⟩

theorem firstHit_none_iff (f : ℕ → JSNum) (l : List ℕ) :
    firstHit f l = none ↔
      ∀ s ∈ l, JSNum.jleC (f s) COLLISION_RADIUS = false := by
  induction l with
  | nil => simp [firstHit]
  | cons a as ih =>
      by_cases h : JSNum.jleC (f a) COLLISION_RADIUS = true
      · simp [firstHit, h]
      · simp only [Bool.not_eq_true] at h
        simp [firstHit, h, ih]

theorem processNeighbor_fresh (T : Trig) (c : Ctx) (uid : String) (mm : Msg)
    (ts : ℚ) (hts : dateMs (mm.timestamp.orElse (.num 0)) = some ts)
    (hfresh : ¬(c.now - ts > STALE_MS)) :
    processNeighbor T c uid (.ok mm) =
      (match firstHit (dPred T c (jsToNumber mm.latitude)
          (jsToNumber mm.longitude) (normalizeHeadingJV mm.heading)
          (speedNorm mm.speed)) predictTimes with
      | some (t, d) =>
          some (predPayloadSelf uid mm (normalizeHeadingJV mm.heading)
              (speedNorm mm.speed) t d, predPayloadPeer c t d)
      | none =>
          match rearCheck c uid mm (normalizeHeadingJV mm.heading)
              (speedNorm mm.speed)
              (haversineJ T (.fin c.baseLat) (.fin c.baseLon)
                (jsToNumber mm.latitude) (jsToNumber mm.longitude))
              (match mm.userId with | .str s => c.hist s | _ => []) with
          | some pr => some pr
          | none =>
              if wrongDirCond c.majority (normalizeHeadingJV mm.heading)
                  (haversineJ T (.fin c.baseLat) (.fin c.baseLon)
                    (jsToNumber mm.latitude) (jsToNumber mm.longitude)) then
                some (wrongPayloadSelf uid mm (normalizeHeadingJV mm.heading)
                    (haversineJ T (.fin c.baseLat) (.fin c.baseLon)
                      (jsToNumber mm.latitude) (jsToNumber mm.longitude)),
                  wrongPayloadPeer c
                    (haversineJ T (.fin c.baseLat) (.fin c.baseLon)
                      (jsToNumber mm.latitude) (jsToNumber mm.longitude)))
              else none) := by
  simp only [processNeighbor]
  rw [hts]
  simp only [if_neg hfresh]

theorem processNeighbor_stale (T : Trig) (c : Ctx) (uid : String) (mm : Msg)
    (ts : ℚ) (hts : dateMs (mm.timestamp.orElse (.num 0)) = some ts)
    (hstale : c.now - ts > STALE_MS) :
    processNeighbor T c uid (.ok mm) = none := by
  simp only [processNeighbor]
  rw [hts]
  simp only [if_pos hstale]

theorem rearCheck_some_types (c : Ctx) (uid : String) (other : Msg)
    (headingOther : ℚ) (speedOther distNow : JSNum)
    (otherHist : List (JSNum × ℚ)) (pr : Threat × Threat)
    (h : rearCheck c uid other headingOther speedOther distNow otherHist =
      some pr) :
    pr.1.ttype = .rear_end ∧ pr.2.ttype = .rear_end := by
  unfold rearCheck at h
  split at h
  · dsimp only at h
    split_ifs at h
    all_goals
      first
        | (obtain rfl := Option.some.inj h; exact ⟨rfl, rfl⟩)
        | simp at h
  · exact absurd h (by simp)

/-- Claim C1: for a processed message and a non-stale neighbor, the
predicted-collision predictor scans t = 1, 2, ..., LOOKAHEAD_S projecting
both vehicles by speed times t along their headings with the spherical
forward formula; when the scan first passes dPred <= COLLISION_RADIUS it
emits the predicted_collision threat with time_s = t and future_distance_m
the two-decimal rounding of that distance, every earlier step having
missed, and no later predictor runs for the pair; when the scan never
passes, no predicted_collision threat is emitted for the pair. -/
theorem c1_predicted_collision_first_hit (T : Trig) (c : Ctx) (uid : String)
    (mm : Msg) (ts : ℚ)
    (hts : dateMs (mm.timestamp.orElse (.num 0)) = some ts)
    (hfresh : ¬(c.now - ts > STALE_MS)) :
    (∀ t d,
      firstHit (dPred T c (jsToNumber mm.latitude) (jsToNumber mm.longitude)
          (normalizeHeadingJV mm.heading) (speedNorm mm.speed)) predictTimes =
        some (t, d) →
      processNeighbor T c uid (.ok mm) =
          some (predPayloadSelf uid mm (normalizeHeadingJV mm.heading)
              (speedNorm mm.speed) t d, predPayloadPeer c t d) ∧
        t ∈ predictTimes ∧
        JSNum.jleC d COLLISION_RADIUS = true ∧
        d = dPred T c (jsToNumber mm.latitude) (jsToNumber mm.longitude)
            (normalizeHeadingJV mm.heading) (speedNorm mm.speed) t ∧
        (∀ s ∈ predictTimes, s < t →
          JSNum.jleC (dPred T c (jsToNumber mm.latitude)
              (jsToNumber mm.longitude) (normalizeHeadingJV mm.heading)
              (speedNorm mm.speed) s) COLLISION_RADIUS = false)) ∧
    (firstHit (dPred T c (jsToNumber mm.latitude) (jsToNumber mm.longitude)
          (normalizeHeadingJV mm.heading) (speedNorm mm.speed)) predictTimes =
        none →
      ∀ pr, processNeighbor T c uid (.ok mm) = some pr →
        pr.1.ttype ≠ .predicted_collision ∧
        pr.2.ttype ≠ .predicted_collision) := by
  constructor
  · intro t d hfh
    obtain ⟨l1, l2, hdec, hle, hdd, hmiss⟩ :=
      (firstHit_some_iff _ _ t d).1 hfh
    have hsorted : predictTimes.Sorted (· < ·) := by decide
    refine ⟨?_, ?_, ?_, hdd, ?_⟩
    · rw [processNeighbor_fresh T c uid mm ts hts hfresh, hfh]
    · rw [hdec]
      exact List.mem_append_right _ (List.mem_cons_self _ _)
    · rw [hdd]; exact hle
    · intro s hs hlt
      rw [hdec] at hs
      rcases List.mem_append.mp hs with hs1 | hs2
      · exact hmiss s hs1
      · exfalso
        rcases List.mem_cons.mp hs2 with rfl | hs3
        · omega
        · have hst : (t :: l2).Pairwise (· < ·) := by
            rw [hdec] at hsorted
            exact (List.pairwise_append.mp hsorted).2.1
          have : t < s := (List.pairwise_cons.mp hst).1 s hs3
          omega
  · intro hfh pr hpr
    rw [processNeighbor_fresh T c uid mm ts hts hfresh, hfh] at hpr
    revert hpr
    split
    next t d heq => exact absurd heq (by simp)
    next heq =>
      split
      next pr2 heq2 =>
        intro hpr
        obtain rfl := Option.some.inj hpr
        have h2 := rearCheck_some_types _ _ _ _ _ _ _ _ heq2
        exact ⟨by rw [h2.1]; simp, by rw [h2.2]; simp⟩
      next heq2 =>
        split
        · intro hpr
          obtain rfl := Option.some.inj hpr
          exact ⟨by simp [wrongPayloadSelf], by simp [wrongPayloadPeer]⟩
        · intro hpr
          exact absurd hpr (by simp)

set_option maxRecDepth 40000 in
theorem c1_witness :
    dateMs (other1.timestamp.orElse (.num 0)) = some (now0 - 1000) ∧
    processNeighbor linTrig ctx1 "B" (.ok other1) =
      some (predPayloadSelf "B" other1 (normalizeHeadingJV other1.heading)
          (speedNorm other1.speed) 2 (.fin 3), predPayloadPeer ctx1 2 (.fin 3)) :=
  ⟨by decide,
   ((c1_predicted_collision_first_hit linTrig ctx1 "B" other1 (now0 - 1000)
       (by decide) (by decide)).1 2 (.fin 3) (by decide)).1⟩

theorem rearCheck_cons (c : Ctx) (uid : String) (other : Msg)
    (hOther : ℚ) (spOther distNow : JSNum) (lastS prevS : JSNum × ℚ)
    (rest : List (JSNum × ℚ)) (l : List (JSNum × ℚ))
    (hl : l.reverse = lastS :: prevS :: rest) :
    rearCheck c uid other hOther spOther distNow l =
      (if (JSNum.jgeC (JSNum.jdivC (JSNum.jsub prevS.1 lastS.1)
              (if (lastS.2 - prevS.2) / 1000 = 0 then 1
                else (lastS.2 - prevS.2) / 1000)) SUDDEN_DECEL
          && JSNum.jleC distNow REAR_END_DISTANCE
          && JSNum.jgtC (JSNum.jsub c.speedSelf spOther) (1/2)) = true then
        some (rearPayloadSelf uid other hOther spOther distNow
            (JSNum.jdivC (JSNum.jsub prevS.1 lastS.1)
              (if (lastS.2 - prevS.2) / 1000 = 0 then 1
                else (lastS.2 - prevS.2) / 1000)),
          rearPayloadPeer c distNow
            (JSNum.jdivC (JSNum.jsub prevS.1 lastS.1)
              (if (lastS.2 - prevS.2) / 1000 = 0 then 1
                else (lastS.2 - prevS.2) / 1000)))
      else none) := by
  unfold rearCheck
  rw [hl]

/-- Claim C4 (amended): for a processed message and a non-stale neighbor
with at least two history samples, for which the predicted-collision scan
did not hit, a rear_end threat (recording distance_m and deceleration) is
emitted if and only if decel >= SUDDEN_DECEL, the current distance is at
most REAR_END_DISTANCE and the closing speed exceeds 0.5 m/s, where
decel = (prevSpeed - lastSpeed) / dt with dt = (lastT - prevT)/1000 seconds
and only an exactly-zero dt replaced by 1 (the || 1 fallback) - not
max(dt, 1) as the original claim stated. -/
theorem c4_rear_end_characterization (T : Trig) (c : Ctx) (uid : String)
    (mm : Msg) (ts : ℚ) (s : String) (lastS prevS : JSNum × ℚ)
    (rest : List (JSNum × ℚ))
    (hts : dateMs (mm.timestamp.orElse (.num 0)) = some ts)
    (hfresh : ¬(c.now - ts > STALE_MS))
    (hid : mm.userId = .str s)
    (hhist : (c.hist s).reverse = lastS :: prevS :: rest)
    (hnohit : firstHit (dPred T c (jsToNumber mm.latitude)
        (jsToNumber mm.longitude) (normalizeHeadingJV mm.heading)
        (speedNorm mm.speed)) predictTimes = none) :
    (processNeighbor T c uid (.ok mm) =
        some (rearPayloadSelf uid mm (normalizeHeadingJV mm.heading)
            (speedNorm mm.speed)
            (haversineJ T (.fin c.baseLat) (.fin c.baseLon)
              (jsToNumber mm.latitude) (jsToNumber mm.longitude))
            (JSNum.jdivC (JSNum.jsub prevS.1 lastS.1)
              (if (lastS.2 - prevS.2) / 1000 = 0 then 1
                else (lastS.2 - prevS.2) / 1000)),
          rearPayloadPeer c
            (haversineJ T (.fin c.baseLat) (.fin c.baseLon)
              (jsToNumber mm.latitude) (jsToNumber mm.longitude))
            (JSNum.jdivC (JSNum.jsub prevS.1 lastS.1)
              (if (lastS.2 - prevS.2) / 1000 = 0 then 1
                else (lastS.2 - prevS.2) / 1000)))) ↔
      (JSNum.jgeC (JSNum.jdivC (JSNum.jsub prevS.1 lastS.1)
            (if (lastS.2 - prevS.2) / 1000 = 0 then 1
              else (lastS.2 - prevS.2) / 1000)) SUDDEN_DECEL
        && JSNum.jleC (haversineJ T (.fin c.baseLat) (.fin c.baseLon)
            (jsToNumber mm.latitude) (jsToNumber mm.longitude))
            REAR_END_DISTANCE
        && JSNum.jgtC (JSNum.jsub c.speedSelf (speedNorm mm.speed)) (1/2)) =
        true := by
  rw [processNeighbor_fresh T c uid mm ts hts hfresh, hnohit]
  dsimp only
  rw [hid]
  dsimp only
  rw [rearCheck_cons c uid mm (normalizeHeadingJV mm.heading)
    (speedNorm mm.speed)
    (haversineJ T (.fin c.baseLat) (.fin c.baseLon)
      (jsToNumber mm.latitude) (jsToNumber mm.longitude))
    lastS prevS rest (c.hist s) hhist]
  by_cases hcond : (JSNum.jgeC (JSNum.jdivC (JSNum.jsub prevS.1 lastS.1)
        (if (lastS.2 - prevS.2) / 1000 = 0 then 1
          else (lastS.2 - prevS.2) / 1000)) SUDDEN_DECEL
      && JSNum.jleC (haversineJ T (.fin c.baseLat) (.fin c.baseLon)
          (jsToNumber mm.latitude) (jsToNumber mm.longitude))
          REAR_END_DISTANCE
      && JSNum.jgtC (JSNum.jsub c.speedSelf (speedNorm mm.speed)) (1/2)) =
      true
  · rw [if_pos hcond]
    exact iff_of_true rfl hcond
  · rw [if_neg hcond]
    dsimp only
    constructor
    · intro hcontra
      split at hcontra
      · have h := Option.some.inj hcontra
        simp [wrongPayloadSelf, rearPayloadSelf, wrongPayloadPeer,
          rearPayloadPeer, Prod.ext_iff, Threat.mk.injEq] at h
      · exact absurd hcontra (by simp)
    · intro h
      exact absurd h hcond

set_option maxRecDepth 100000 in
/-- Claim C4 counterexample: vehicle B decelerated from 16 to 14.5 m/s in
500 ms (history samples 500 ms apart).  The code computes
decel = 1.5/0.5 = 3 >= 2 and emits a rear_end threat recording
deceleration 3; the formula of the claim, (prev - last)/max(dt, 1s),
gives 1.5/1 = 1.5 < 2, under which no rear_end threat may be emitted, so
the claimed iff fails at this input. -/
theorem c4_counterexample :
    processNeighbor linTrig ctx4 "B" (.ok other4) =
      some (rearPayloadSelf "B" other4 0 (.fin (29/2)) (.fin 9) (.fin 3),
            rearPayloadPeer ctx4 (.fin 9) (.fin 3)) ∧
    ((16 : ℚ) - 29/2) / max (((now0 - 500) - (now0 - 1000)) / 1000) 1 < 2 :=
  ⟨by decide, by decide⟩

set_option maxRecDepth 100000 in
theorem c4_witness :
    (ctx4.hist "B").reverse =
      (JSNum.fin (29/2), now0 - 500) :: (JSNum.fin 16, now0 - 1000) :: [] ∧
    processNeighbor linTrig ctx4 "B" (.ok other4) =
      some (rearPayloadSelf "B" other4 (normalizeHeadingJV other4.heading)
          (speedNorm other4.speed)
          (haversineJ linTrig (.fin ctx4.baseLat) (.fin ctx4.baseLon)
            (jsToNumber other4.latitude) (jsToNumber other4.longitude))
          (JSNum.jdivC
            (JSNum.jsub (JSNum.fin 16, now0 - 1000).1
              (JSNum.fin (29/2), now0 - 500).1)
            (if ((JSNum.fin (29/2), now0 - 500).2 -
                  (JSNum.fin 16, now0 - 1000).2) / 1000 = 0 then 1
              else ((JSNum.fin (29/2), now0 - 500).2 -
                  (JSNum.fin 16, now0 - 1000).2) / 1000)),
        rearPayloadPeer ctx4
          (haversineJ linTrig (.fin ctx4.baseLat) (.fin ctx4.baseLon)
            (jsToNumber other4.latitude) (jsToNumber other4.longitude))
          (JSNum.jdivC
            (JSNum.jsub (JSNum.fin 16, now0 - 1000).1
              (JSNum.fin (29/2), now0 - 500).1)
            (if ((JSNum.fin (29/2), now0 - 500).2 -
                  (JSNum.fin 16, now0 - 1000).2) / 1000 = 0 then 1
              else ((JSNum.fin (29/2), now0 - 500).2 -
                  (JSNum.fin 16, now0 - 1000).2) / 1000))) :=
  ⟨by decide,
   (c4_rear_end_characterization linTrig ctx4 "B" other4 (now0 - 500) "B"
      (JSNum.fin (29/2), now0 - 500) (JSNum.fin 16, now0 - 1000) []
      (by decide) (by decide) (by decide) (by decide) (by decide)).mpr
    (by decide)⟩

/-- Claim C3: for a non-stale neighbor of the part_000 pipeline with both
speeds at least 2.78 m/s and smallest-arc heading difference in [60, 120]
degrees (the intersection guard), an intersection_collision threat is
emitted to the origin if and only if the clamped closest-point-of-approach
distance over maxT = PROJECTION_TIME_SECONDS is at most 8 m and the clamped
time of closest approach is at most TTC_MAX_SECONDS = 3 s. -/
theorem c3_intersection_iff (T : Trig) (c : P000.Ctx000) (uid : String)
    (mm : Msg) (ts : ℚ)
    (hts : dateMs (mm.timestamp.orElse (.num 0)) = some ts)
    (hfresh : ¬(c.now - ts > STALE_MS))
    (hg : (JSNum.jgeC c.speedSelf (278/100)
      && JSNum.jgeC (speedNorm mm.speed) (278/100)
      && decide (60 ≤ headingDiff c.headingSelf (normalizeHeadingJV mm.heading))
      && decide (headingDiff c.headingSelf (normalizeHeadingJV mm.heading) ≤ 120))
      = true) :
    (∃ thr, (P000.processNeighbor000 T c uid (.ok mm)).1 = some thr ∧
        thr.ttype = .intersection_collision) ↔
      (JSNum.jleC (interCpa T c mm).2 8 && JSNum.jleC (interCpa T c mm).1 3)
        = true := by
  simp only [P000.processNeighbor000]
  rw [hts]
  simp only [if_neg hfresh]
  dsimp only
  rw [hg]
  simp only [Bool.true_and]
  by_cases hcond : (JSNum.jleC (interCpa T c mm).2 8
      && JSNum.jleC (interCpa T c mm).1 3) = true
  · rw [if_pos (by exact hcond)]
    exact iff_of_true ⟨_, rfl, rfl⟩ hcond
  · rw [if_neg (by exact hcond)]
    refine iff_of_false ?_ hcond
    rintro ⟨thr, hthr, htype⟩
    revert hthr
    repeat' split
    all_goals intro hthr
    all_goals
      first
        | (rw [← Option.some.inj hthr] at htype; simp at htype)
        | simp at hthr

set_option maxRecDepth 100000 in
theorem c3_witness :
    (JSNum.jgeC ctx3.speedSelf (278/100)
      && JSNum.jgeC (speedNorm other3.speed) (278/100)
      && decide (60 ≤ headingDiff ctx3.headingSelf
          (normalizeHeadingJV other3.heading))
      && decide (headingDiff ctx3.headingSelf
          (normalizeHeadingJV other3.heading) ≤ 120)) = true ∧
    (∃ thr, (P000.processNeighbor000 linTrig ctx3 "B" (.ok other3)).1 =
        some thr ∧ thr.ttype = .intersection_collision) :=
  ⟨by decide,
   (c3_intersection_iff linTrig ctx3 "B" other3 (now0 - 1000)
      (by decide) (by decide) (by decide)).mpr (by decide)⟩

theorem rearCheck_some_tid (c : Ctx) (uid : String) (other : Msg)
    (headingOther : ℚ) (speedOther distNow : JSNum)
    (otherHist : List (JSNum × ℚ)) (pr : Threat × Threat)
    (h : rearCheck c uid other headingOther speedOther distNow otherHist =
      some pr) :
    pr.1.tid = other.userId.coalesce (.str uid) := by
  unfold rearCheck at h
  split at h
  · dsimp only at h
    split_ifs at h
    all_goals
      first
        | (obtain rfl := Option.some.inj h; rfl)
        | simp at h
  · simp at h

theorem processNeighbor_tid (T : Trig) (c : Ctx) (u : String)
    (entry : StoredEntry) (pr : Threat × Threat)
    (h : processNeighbor T c u entry = some pr) :
    ∃ mm, entry = .ok mm ∧ pr.1.tid = mm.userId.coalesce (.str u) := by
  cases entry with
  | missing => simp [processNeighbor] at h
  | malformed => simp [processNeighbor] at h
  | ok mm =>
      refine ⟨mm, rfl, ?_⟩
      simp only [processNeighbor] at h
      split at h
      · simp at h
      · split at h
        · simp at h
        · revert h
          split
          next t d heq =>
            intro h
            obtain rfl := Option.some.inj h
            rfl
          next heq =>
            split
            next pr2 heq2 =>
              intro h
              obtain rfl := Option.some.inj h
              exact rearCheck_some_tid _ _ _ _ _ _ _ _ heq2
            next heq2 =>
              split
              · intro h
                obtain rfl := Option.some.inj h
                rfl
              · intro h
                simp at h

theorem processNeighbor_inv (T : Trig) (c : Ctx) (u : String)
    (entry : StoredEntry) (pr : Threat × Threat)
    (h : processNeighbor T c u entry = some pr) :
    ∃ mm ts, entry = .ok mm ∧
      dateMs (mm.timestamp.orElse (.num 0)) = some ts ∧
      ¬(c.now - ts > STALE_MS) ∧
      ((∃ t d, firstHit (dPred T c (jsToNumber mm.latitude)
            (jsToNumber mm.longitude) (normalizeHeadingJV mm.heading)
            (speedNorm mm.speed)) predictTimes = some (t, d) ∧
          pr = (predPayloadSelf u mm (normalizeHeadingJV mm.heading)
              (speedNorm mm.speed) t d, predPayloadPeer c t d)) ∨
        (firstHit (dPred T c (jsToNumber mm.latitude)
            (jsToNumber mm.longitude) (normalizeHeadingJV mm.heading)
            (speedNorm mm.speed)) predictTimes = none ∧
          rearCheck c u mm (normalizeHeadingJV mm.heading)
            (speedNorm mm.speed)
            (haversineJ T (.fin c.baseLat) (.fin c.baseLon)
              (jsToNumber mm.latitude) (jsToNumber mm.longitude))
            (match mm.userId with | .str s => c.hist s | _ => []) =
            some pr) ∨
        (firstHit (dPred T c (jsToNumber mm.latitude)
            (jsToNumber mm.longitude) (normalizeHeadingJV mm.heading)
            (speedNorm mm.speed)) predictTimes = none ∧
          rearCheck c u mm (normalizeHeadingJV mm.heading)
            (speedNorm mm.speed)
            (haversineJ T (.fin c.baseLat) (.fin c.baseLon)
              (jsToNumber mm.latitude) (jsToNumber mm.longitude))
            (match mm.userId with | .str s => c.hist s | _ => []) = none ∧
          wrongDirCond c.majority (normalizeHeadingJV mm.heading)
            (haversineJ T (.fin c.baseLat) (.fin c.baseLon)
              (jsToNumber mm.latitude) (jsToNumber mm.longitude)) = true ∧
          pr = (wrongPayloadSelf u mm (normalizeHeadingJV mm.heading)
              (haversineJ T (.fin c.baseLat) (.fin c.baseLon)
                (jsToNumber mm.latitude) (jsToNumber mm.longitude)),
            wrongPayloadPeer c
              (haversineJ T (.fin c.baseLat) (.fin c.baseLon)
                (jsToNumber mm.latitude) (jsToNumber mm.longitude))))) := by
  cases entry with
  | missing => simp [processNeighbor] at h
  | malformed => simp [processNeighbor] at h
  | ok mm =>
      simp only [processNeighbor] at h
      split at h
      · simp at h
      next ts hts =>
        split at h
        · simp at h
        next hfresh =>
          refine ⟨mm, ts, rfl, hts, hfresh, ?_⟩
          revert h
          split
          next t d heq =>
            intro h
            obtain rfl := Option.some.inj h
            exact Or.inl ⟨t, d, heq, rfl⟩
          next heq =>
            split
            next pr2 heq2 =>
              intro h
              obtain rfl := Option.some.inj h
              exact Or.inr (Or.inl ⟨heq, heq2⟩)
            next heq2 =>
              split
              next hw =>
                intro h
                obtain rfl := Option.some.inj h
                exact Or.inr (Or.inr ⟨heq, heq2, by simpa using hw, rfl⟩)
              next hw =>
                intro h
                simp at h

theorem filterMap_count_le_one {β : Type} (l : List String) (hnd : l.Nodup)
    (f : String → Option β) (P : β → Bool) (u : String)
    (hkey : ∀ v b, f v = some b → P b = true → v = u) :
    ((l.filterMap f).filter P).length ≤ 1 := by
  induction l with
  | nil => simp
  | cons a tl ih =>
      obtain ⟨hna, hnd2⟩ := List.nodup_cons.mp hnd
      rcases hf : f a with _ | b
      · rw [List.filterMap_cons_none hf]
        exact ih hnd2
      · rw [List.filterMap_cons_some hf]
        rcases hP : P b with _ | _
        · rw [List.filter_cons_of_neg (by simp [hP])]
          exact ih hnd2
        · rw [List.filter_cons_of_pos (by simp [hP])]
          have hz : (tl.filterMap f).filter P = [] := by
            rw [List.filter_eq_nil]
            intro b2 hb2 hPb2
            obtain ⟨v, hv, hfv⟩ := List.mem_filterMap.mp hb2
            have hvu : v = u := hkey v b2 hfv (by simpa using hPb2)
            have hau : a = u := hkey a b hf hP
            rw [hvu, ← hau] at hv
            exact hna hv
          simp [hz]

theorem peerEntry_shape (T : Trig) (env : Env) (sessions : List (String × ℕ))
    (c : Ctx) (u : String) (e : Effect)
    (h : (match processNeighbor T c u (entryOf env u) with
          | some pr =>
              match mapGet sessions u with
              | some ch =>
                  if env.openChans ch then
                    some (Effect.sendPeer u (.push pr.2))
                  else none
              | none => none
          | none => none) = some e) :
    ∃ pr, processNeighbor T c u (entryOf env u) = some pr ∧
      e = Effect.sendPeer u (.push pr.2) := by
  split at h
  next pr heq =>
    split at h
    next ch heq2 =>
      split at h
      · exact ⟨pr, heq, (Option.some.inj h).symm⟩
      · simp at h
    next heq2 => simp at h
  next heq => simp at h

/-- Claim C6 (amended): for every valid message, whatever the outcome of the
infrastructure operations (geo upsert, telemetry write, radius query,
batched fetch), the pipeline is never aborted with an error: the effect
trace always ends with a normal status received acknowledgment to the
origin and contains no error send.  A failed radius query behaves as zero
neighbors and a failed fetch as missing payloads. -/
theorem c6_infra_failure_continues (T : Trig) (env : Env) (st : SState)
    (chan : ℕ) (now : ℚ) (inb : Inbound) (uid : String) (la lo : ℚ) (m : Msg)
    (hval : validate inb = .ok (uid, la, lo, m)) :
    (∃ ths, ((handleMessage T env st chan now inb).2).getLast? =
        some (.sendOrigin (.ack ths))) ∧
    (∀ e ∈ (handleMessage T env st chan now inb).2, ∀ r,
      e ≠ .sendOrigin (.err r)) := by
  unfold handleMessage
  rw [hval]
  dsimp only
  split
  · constructor
    · exact ⟨[], rfl⟩
    · intro e he r
      simp only [List.mem_cons, List.not_mem_nil, or_false] at he
      rcases he with rfl | rfl | rfl | rfl <;> simp
  · constructor
    · exact ⟨_, by simp only [List.getLast?_append, List.getLast?_concat]; rfl⟩
    · intro e he r
      rcases List.mem_append.mp he with h1 | h2
      · rcases List.mem_append.mp h1 with h3 | h4
        · simp only [List.mem_cons, List.not_mem_nil, or_false] at h3
          rcases h3 with rfl | rfl | rfl | rfl <;> simp
        · obtain ⟨u2, hu2, hfu⟩ := List.mem_filterMap.mp h4
          obtain ⟨pr, hpr, rfl⟩ := peerEntry_shape T env _ _ u2 e hfu
          simp
      · simp only [List.mem_cons, List.not_mem_nil, or_false] at h2
        subst h2
        simp

/-- Claim C6 counterexample: for a valid message whose geo upsert fails
(geoAddOk = false), the pipeline is not aborted and no error
acknowledgment is sent: the telemetry write still runs (and succeeds) after
the failed upsert and the origin receives the normal received
acknowledgment, contradicting the claim that an infrastructure failure
yields an error acknowledgment and aborts the message. -/
theorem c6_counterexample :
    (handleMessage linTrig env6 st0 1 now0 (.obj msg6)).2 =
      [.geoAdd "U" 0 0 false, .setData "U" 30 true, .geoQuery 75 true,
       .sendOrigin (.ack [])] ∧
    Effect.geoAdd "U" 0 0 false ∈
      (handleMessage linTrig env6 st0 1 now0 (.obj msg6)).2 ∧
    Effect.setData "U" 30 true ∈
      (handleMessage linTrig env6 st0 1 now0 (.obj msg6)).2 ∧
    ((handleMessage linTrig env6 st0 1 now0 (.obj msg6)).2.all
      (fun e => match e with
        | .sendOrigin (.err _) => false
        | _ => true)) = true :=
  ⟨by decide, by decide, by decide, by decide⟩

theorem c6_witness :
    validate (.obj msg6) = .ok ("U", 0, 0, msg6) ∧
    ((∃ ths, ((handleMessage linTrig env6 st0 1 now0 (.obj msg6)).2).getLast? =
        some (.sendOrigin (.ack ths))) ∧
     (∀ e ∈ (handleMessage linTrig env6 st0 1 now0 (.obj msg6)).2, ∀ r,
        e ≠ .sendOrigin (.err r))) :=
  ⟨rfl, c6_infra_failure_continues linTrig env6 st0 1 now0 (.obj msg6)
    "U" 0 0 msg6 rfl⟩

theorem processNeighbor_entryOf_stale_none (T : Trig) (env : Env) (c : Ctx)
    (uid : String) (mm : Msg) (ts : ℚ)
    (hstore : env.store uid = .ok mm)
    (hts : dateMs (mm.timestamp.orElse (.num 0)) = some ts)
    (hstale : c.now - ts > STALE_MS) :
    processNeighbor T c uid (entryOf env uid) = none := by
  unfold entryOf
  by_cases hm : env.mgetOk
  · rw [if_pos hm, hstore]
    exact processNeighbor_stale T c uid mm ts hts hstale
  · rw [if_neg hm]
    rfl

theorem threatEntry_shape (T : Trig) (c : Ctx) (env : Env) (v : String)
    (th : Threat)
    (h : (processNeighbor T c v (entryOf env v)).map Prod.fst = some th) :
    ∃ pr, processNeighbor T c v (entryOf env v) = some pr ∧ th = pr.1 := by
  rcases hpn : processNeighbor T c v (entryOf env v) with _ | pr
  · rw [hpn] at h; simp at h
  · rw [hpn] at h
    exact ⟨pr, rfl, (Option.some.inj h).symm⟩

theorem processNeighbor_entryOf_tid (T : Trig) (c : Ctx) (env : Env)
    (v : String) (pr : Threat × Threat)
    (hcons : ∀ u m2, env.store u = .ok m2 → m2.userId = .str u)
    (h : processNeighbor T c v (entryOf env v) = some pr) :
    pr.1.tid = .str v := by
  obtain ⟨mmv, hentry, htid⟩ := processNeighbor_tid T c v _ pr h
  unfold entryOf at hentry
  split at hentry
  · have hid := hcons v mmv hentry
    rw [htid, hid]
    rfl
  · exact absurd hentry (by simp)

/-- Claim C8: a stored neighbor whose timestamp is older than STALE_MS
relative to the server receive time never contributes a threat: assuming
the stored payloads carry their own key as userId (which the write path
guarantees), the effect trace of any message contains no push to that
neighbor and no acknowledged threat naming it. -/
theorem c8_stale_neighbor_never_contributes (T : Trig) (env : Env)
    (st : SState) (chan : ℕ) (now : ℚ) (inb : Inbound)
    (uid : String) (mm : Msg) (ts : ℚ)
    (hstore : env.store uid = .ok mm)
    (hts : dateMs (mm.timestamp.orElse (.num 0)) = some ts)
    (hstale : now - ts > STALE_MS)
    (hcons : ∀ u m2, env.store u = .ok m2 → m2.userId = .str u) :
    ∀ e ∈ (handleMessage T env st chan now inb).2,
      (∀ p, e ≠ .sendPeer uid p) ∧
      (∀ ths, e = .sendOrigin (.ack ths) → ∀ th ∈ ths, th.tid ≠ .str uid) := by
  unfold handleMessage
  split
  · intro e he
    simp only [List.mem_cons, List.not_mem_nil, or_false] at he
    subst he
    exact ⟨fun p => by simp, fun ths h => by simp at h⟩
  next uidS la lo m hval =>
    dsimp only
    split
    · intro e he
      simp only [List.mem_cons, List.not_mem_nil, or_false] at he
      rcases he with rfl | rfl | rfl | rfl
      · exact ⟨fun p => by simp, fun ths h => by simp at h⟩
      · exact ⟨fun p => by simp, fun ths h => by simp at h⟩
      · exact ⟨fun p => by simp, fun ths h => by simp at h⟩
      · refine ⟨fun p => by simp, fun ths h th hth => ?_⟩
        simp only [Effect.sendOrigin.injEq, OutMsg.ack.injEq] at h
        rw [← h] at hth
        simp at hth
    · intro e he
      rcases List.mem_append.mp he with h1 | h2
      · rcases List.mem_append.mp h1 with h3 | h4
        · simp only [List.mem_cons, List.not_mem_nil, or_false] at h3
          rcases h3 with rfl | rfl | rfl | rfl <;>
            exact ⟨fun p => by simp, fun ths h => by simp at h⟩
        · obtain ⟨u2, hu2, hfu⟩ := List.mem_filterMap.mp h4
          obtain ⟨pr, hpr, rfl⟩ := peerEntry_shape T env _ _ u2 e hfu
          refine ⟨fun p hcontra => ?_, fun ths h => by simp at h⟩
          have hu2uid : u2 = uid := by
            simp only [Effect.sendPeer.injEq] at hcontra
            exact hcontra.1
          rw [hu2uid] at hpr
          rw [processNeighbor_entryOf_stale_none T env _ uid mm ts hstore hts
            hstale] at hpr
          exact absurd hpr (by simp)
      · simp only [List.mem_cons, List.not_mem_nil, or_false] at h2
        subst h2
        refine ⟨fun p => by simp, fun ths h th hth => ?_⟩
        simp only [Effect.sendOrigin.injEq, OutMsg.ack.injEq] at h
        rw [← h] at hth
        obtain ⟨v, hv, hfv⟩ := List.mem_filterMap.mp hth
        obtain ⟨pr, hpn, rfl⟩ := threatEntry_shape T _ env v th hfv
        intro htid
        have hvstr : pr.1.tid = .str v :=
          processNeighbor_entryOf_tid T _ env v pr hcons hpn
        rw [hvstr] at htid
        have hvuid : v = uid := by
          simpa using htid
        rw [hvuid] at hpn
        rw [processNeighbor_entryOf_stale_none T env _ uid mm ts hstore hts
          hstale] at hpn
        exact absurd hpn (by simp)

theorem c8_witness :
    now0 - (now0 - 10000) > STALE_MS ∧
    (∀ e ∈ (handleMessage linTrig env8 st0 1 now0 (.obj msg1)).2,
      (∀ p, e ≠ .sendPeer "B" p) ∧
      (∀ ths, e = .sendOrigin (.ack ths) → ∀ th ∈ ths,
        th.tid ≠ .str "B")) :=
  ⟨by decide,
   c8_stale_neighbor_never_contributes linTrig env8 st0 1 now0 (.obj msg1)
     "B" otherStale (now0 - 10000) (by decide) (by decide) (by decide)
     (by
       intro u m2 h
       by_cases hu : u = "B"
       · subst hu
         simp [env8] at h
         rw [← h]
         rfl
       · simp [env8, hu] at h)⟩

/-- Claim C2: per processed message, at most one threat of any type is
emitted per (self, neighbor) pair - at most one acknowledged threat names a
given counterpart and at most one push is sent to it (assuming the radius
result has no duplicate ids and stored payloads carry their own key, both
guaranteed by the store) - and the predictors run in source order: a
neighbor's single result comes from the first matching predictor
(predicted collision, else rear end, else wrong direction), skipping the
rest. -/
theorem c2_at_most_one_threat_per_pair (T : Trig) (env : Env) (st : SState)
    (chan : ℕ) (now : ℚ) (inb : Inbound)
    (hnd : (env.radius.getD []).Nodup)
    (hcons : ∀ u m2, env.store u = .ok m2 → m2.userId = .str u) :
    (∀ u ths, Effect.sendOrigin (.ack ths) ∈
        (handleMessage T env st chan now inb).2 →
      (ths.filter (fun th => th.tid == JVal.str u)).length ≤ 1) ∧
    (∀ u, (((handleMessage T env st chan now inb).2).filter
        (fun e => match e with
          | .sendPeer w _ => w == u
          | _ => false)).length ≤ 1) ∧
    (∀ (c : Ctx) (v : String) (entry : StoredEntry) (pr : Threat × Threat),
      processNeighbor T c v entry = some pr →
      ∃ mm ts, entry = .ok mm ∧
        dateMs (mm.timestamp.orElse (.num 0)) = some ts ∧
        ¬(c.now - ts > STALE_MS) ∧
        ((∃ t d, firstHit (dPred T c (jsToNumber mm.latitude)
              (jsToNumber mm.longitude) (normalizeHeadingJV mm.heading)
              (speedNorm mm.speed)) predictTimes = some (t, d) ∧
            pr = (predPayloadSelf v mm (normalizeHeadingJV mm.heading)
                (speedNorm mm.speed) t d, predPayloadPeer c t d)) ∨
          (firstHit (dPred T c (jsToNumber mm.latitude)
              (jsToNumber mm.longitude) (normalizeHeadingJV mm.heading)
              (speedNorm mm.speed)) predictTimes = none ∧
            rearCheck c v mm (normalizeHeadingJV mm.heading)
              (speedNorm mm.speed)
              (haversineJ T (.fin c.baseLat) (.fin c.baseLon)
                (jsToNumber mm.latitude) (jsToNumber mm.longitude))
              (match mm.userId with | .str s => c.hist s | _ => []) =
              some pr) ∨
          (firstHit (dPred T c (jsToNumber mm.latitude)
              (jsToNumber mm.longitude) (normalizeHeadingJV mm.heading)
              (speedNorm mm.speed)) predictTimes = none ∧
            rearCheck c v mm (normalizeHeadingJV mm.heading)
              (speedNorm mm.speed)
              (haversineJ T (.fin c.baseLat) (.fin c.baseLon)
                (jsToNumber mm.latitude) (jsToNumber mm.longitude))
              (match mm.userId with | .str s => c.hist s | _ => []) = none ∧
            wrongDirCond c.majority (normalizeHeadingJV mm.heading)
              (haversineJ T (.fin c.baseLat) (.fin c.baseLon)
                (jsToNumber mm.latitude) (jsToNumber mm.longitude)) = true ∧
            pr = (wrongPayloadSelf v mm (normalizeHeadingJV mm.heading)
                (haversineJ T (.fin c.baseLat) (.fin c.baseLon)
                  (jsToNumber mm.latitude) (jsToNumber mm.longitude)),
              wrongPayloadPeer c
                (haversineJ T (.fin c.baseLat) (.fin c.baseLon)
                  (jsToNumber mm.latitude) (jsToNumber mm.longitude)))))) := by
  refine ⟨?_, ?_, fun c v entry pr h => processNeighbor_inv T c v entry pr h⟩
  · intro u ths hmem
    unfold handleMessage at hmem
    split at hmem
    · simp at hmem
    next uidS la lo m hval =>
      dsimp only at hmem
      split at hmem
      · simp only [List.mem_cons, List.not_mem_nil, or_false] at hmem
        rcases hmem with hmem | hmem | hmem | hmem
        · exact absurd hmem (by simp)
        · exact absurd hmem (by simp)
        · exact absurd hmem (by simp)
        · simp only [Effect.sendOrigin.injEq, OutMsg.ack.injEq] at hmem
          simp [hmem]
      · rcases List.mem_append.mp hmem with h1 | h2
        · rcases List.mem_append.mp h1 with h3 | h4
          · simp at h3
          · obtain ⟨u2, hu2, hfu⟩ := List.mem_filterMap.mp h4
            obtain ⟨pr, hpr, heq⟩ := peerEntry_shape T env _ _ u2 _ hfu
            simp at heq
        · simp only [List.mem_cons, List.not_mem_nil, or_false] at h2
          simp only [Effect.sendOrigin.injEq, OutMsg.ack.injEq] at h2
          rw [h2]
          refine filterMap_count_le_one _ (hnd.filter _) _ _ u ?_
          intro v b hfb hP
          obtain ⟨pr, hpn, rfl⟩ := threatEntry_shape T _ env v b hfb
          have htid : pr.1.tid = .str v :=
            processNeighbor_entryOf_tid T _ env v pr hcons hpn
          rw [htid] at hP
          simpa using hP
  · intro u
    unfold handleMessage
    split
    · simp
    next uidS la lo m hval =>
      dsimp only
      split
      · simp
      · rw [List.filter_append, List.filter_append]
        have h4 : List.filter (fun e => match e with
            | Effect.sendPeer w _ => w == u
            | _ => false)
            [Effect.geoAdd uidS lo la env.geoAddOk,
             Effect.setData uidS
               (if JSNum.jgtC (jsToNumber m.speed) 5 = true then 10 else 30)
               env.setOk,
             Effect.geoQuery (nearbyRadiusOf T m) env.radius.isSome,
             Effect.mgetQ ((List.filter (fun v => decide (v ≠ uidS))
                 (env.radius.getD [])).map (fun v => "userData:" ++ v))
               env.mgetOk] = [] := rfl
        have hAck : ∀ ths : List Threat,
            List.filter (fun e => match e with
              | Effect.sendPeer w _ => w == u
              | _ => false) [Effect.sendOrigin (.ack ths)] = [] :=
          fun ths => rfl
        rw [h4, hAck]
        simp only [List.nil_append, List.append_nil, List.length_append,
          List.length_nil]
        refine filterMap_count_le_one _ (hnd.filter _) _ _ u ?_
        intro v b hfb hP
        obtain ⟨pr, hpn, rfl⟩ := peerEntry_shape T env _ _ v b hfb
        simpa using hP

theorem c2_witness :
    (env1.radius.getD []).Nodup ∧
    (∀ u ths, Effect.sendOrigin (.ack ths) ∈
        (handleMessage linTrig env1 st0 1 now0 (.obj msg1)).2 →
      (ths.filter (fun th => th.tid == JVal.str u)).length ≤ 1) :=
  ⟨by decide,
   (c2_at_most_one_threat_per_pair linTrig env1 st0 1 now0 (.obj msg1)
      (by decide)
      (by
        intro u m2 h
        by_cases hu : u = "B"
        · subst hu
          simp [env1] at h
          rw [← h]
          rfl
        · simp [env1, hu] at h)).1⟩
